import Mathlib

/-!
Shallow embedding of the crayon graphics frame-command pipeline
(`src/graphics/graphics.rs`, `src/graphics/backend/frame.rs`) together with
spec-modelled stand-ins for the resource `Registery` and the `DataBuffer`
staging arena, whose sources are not part of the provided tree.
-/

namespace Crayon

/-- Opaque handle into a registry; the source models handles as index plus
generation, but since the modelled registry never reuses slots the index
alone identifies a slot. -/
abbrev SurfaceHandle := Nat

abbrev ShaderHandle := Nat

abbrev MeshHandle := Nat

abbrev TextureHandle := Nat

abbrev RenderBufferHandle := Nat

abbrev FrameBufferHandle := Nat

/-- Hash of a uniform-variable name (`HashValue<str>` in the source); the
hash function is modelled as injective, so a hashed name is just a `Nat`. -/
abbrev HashStr := Nat

/-- Modelled from the spec: a logical resource `Location` is either
"unique" (never deduplicated) or "shared", keyed by a stable identifier. -/
inductive Location where
  | unique (uri : Nat) : Location
  | shared (key : Nat) : Location
deriving DecidableEq, Repr

/-- Type tag of a uniform variable (`UniformVariableType`). -/
inductive UniformVariableType where
  | i1 | f1 | v4
deriving DecidableEq, Repr

/-- Uniform variable value; a small representative set of variants. -/
inductive UniformVariable where
  | i1 (a : Int) : UniformVariable
  | f1 (a : Int) : UniformVariable
  | v4 (a b c d : Int) : UniformVariable
deriving DecidableEq, Repr

/-- Type tag of a uniform value (`UniformVariable::variable_type`). -/
def UniformVariable.variable_type : UniformVariable → UniformVariableType
  | .i1 _ => .i1
  | .f1 _ => .f1
  | .v4 _ _ _ _ => .v4

/-- Byte encoding of a uniform value as staged by `DataBuffer::extend`;
a concrete tag-plus-payload encoding standing in for the raw bytes. -/
def encodeUniform : UniformVariable → List Int
  | .i1 a => [0, a]
  | .f1 a => [1, a]
  | .v4 a b c d => [2, a, b, c, d]

/-- Token into the staging arena (`DataBufferPtr`): offset and length. -/
structure DataBufferPtr where
  offset : Nat
  len : Nat
deriving DecidableEq, Repr

/-- Modelled from the spec: the Staging Arena (`DataBuffer`), a
monotonically growing byte buffer; capacity bookkeeping is not modelled,
only the logical contents. Bytes are modelled as `Int` to carry the
encodings above. -/
structure DataBuffer where
  data : List Int
deriving DecidableEq, Repr

/-- Modelled from the spec: `DataBuffer::extend_from_slice` copies a byte
span to the end of the buffer and returns its token. -/
def DataBuffer.extend_from_slice (b : DataBuffer) (bytes : List Int) :
    DataBuffer × DataBufferPtr :=
  (⟨b.data ++ bytes⟩, ⟨b.data.length, bytes.length⟩)

/-- Modelled from the spec: `DataBuffer::extend` for a uniform value. -/
def DataBuffer.extend (b : DataBuffer) (v : UniformVariable) :
    DataBuffer × DataBufferPtr :=
  b.extend_from_slice (encodeUniform v)

/-- Byte encoding of one packed (name-hash, value-token) pair. -/
def encodePackEntry (e : HashStr × DataBufferPtr) : List Int :=
  [Int.ofNat e.1, Int.ofNat e.2.offset, Int.ofNat e.2.len]

/-- Modelled from the spec: `DataBuffer::extend` for the packed uniform
array of a draw call. -/
def DataBuffer.extendPack (b : DataBuffer) (pack : List (HashStr × DataBufferPtr)) :
    DataBuffer × DataBufferPtr :=
  b.extend_from_slice (pack.flatMap encodePackEntry)

/-- Modelled from the spec: `DataBuffer::clear` logically empties the
buffer (length reset to zero; capacity retention is not modelled). -/
def DataBuffer.clear (_ : DataBuffer) : DataBuffer := ⟨[]⟩

/-- Modelled from the spec: a registry slot holding a reference count, the
logical location, and the per-resource state payload. A slot is live iff
its reference count is positive. -/
structure RegSlot (α : Type) where
  rc : Nat
  loc : Location
  state : α
deriving DecidableEq, Repr

/-- Modelled from the spec: the `Registery` slot table. Slots are indexed
by handle; dead slots are kept in place (slot reuse and the per-tick
compaction are not needed by the modelled operations), so capacity is
unbounded. -/
structure Registery (α : Type) where
  slots : List (RegSlot α)
deriving DecidableEq, Repr

/-- Modelled from the spec: `Registery::new`. -/
def Registery.new (α : Type) : Registery α := ⟨[]⟩

/-- Modelled from the spec: `is_alive` — the handle names a slot with a
positive reference count. -/
def Registery.is_alive (r : Registery α) (h : Nat) : Bool :=
  match r.slots[h]? with
  | some s => s.rc > 0
  | none => false

/-- Modelled from the spec: `get` — read accessor for a live slot. -/
def Registery.get (r : Registery α) (h : Nat) : Option α :=
  match r.slots[h]? with
  | some s => if s.rc > 0 then some s.state else none
  | none => none

/-- Modelled from the spec: `lookup` returns the live handle for a shared
location, or none; unique locations are never indexed. -/
def Registery.lookup (r : Registery α) : Location → Option Nat
  | .unique _ => none
  | .shared key => r.slots.findIdx? (fun s => s.rc > 0 && s.loc == Location.shared key)

/-- Modelled from the spec: `inc_rc` increments the reference count of a
live slot and is a no-op on a dead handle. -/
def Registery.inc_rc (r : Registery α) (h : Nat) : Registery α :=
  if r.is_alive h then
    ⟨r.slots.modify (fun s => { s with rc := s.rc + 1 }) h⟩
  else r

/-- Modelled from the spec: `dec_rc` decrements the count of a live slot;
when the count reaches zero and `allow_delete` is set, the slot dies and
its last state is returned as a signal to enqueue the deletion. -/
def Registery.dec_rc (r : Registery α) (h : Nat) (allow_delete : Bool) :
    Registery α × Option α :=
  match r.slots[h]? with
  | some s =>
      if s.rc > 0 then
        let r' : Registery α := ⟨r.slots.modify (fun t => { t with rc := t.rc - 1 }) h⟩
        if s.rc = 1 && allow_delete then (r', some s.state) else (r', none)
      else (r, none)
  | none => (r, none)

/-- Modelled from the spec: `create` — deduplicates shared locations onto
the existing live slot (incrementing its count and discarding the caller's
state), otherwise appends a fresh slot with count one. -/
def Registery.create (r : Registery α) (loc : Location) (st : α) :
    Registery α × Nat :=
  match r.lookup loc with
  | some h => (r.inc_rc h, h)
  | none => (⟨r.slots ++ [⟨1, loc, st⟩]⟩, r.slots.length)

/-- Opaque pass-through payloads of the setup types not under `src/`. -/
abbrev SurfaceSetup := Nat

abbrev TextureSetup := Nat

abbrev RenderTextureSetup := Nat

abbrev RenderBufferSetup := Nat

/-- Scissor rectangle, opaque pass-through. -/
abbrev Scissor := Nat

/-- Texture sub-rectangle, opaque pass-through. -/
abbrev Rect := Nat

/-- Mesh sub-range selector, opaque pass-through. -/
abbrev MeshIndex := Nat

/-- Framebuffer attachment (`FrameBufferAttachment`). -/
inductive FrameBufferAttachment where
  | renderBuffer (h : RenderBufferHandle)
  | texture (h : TextureHandle)
deriving DecidableEq, Repr

/-- Framebuffer setup: the attachment slots, in attachment-index order. -/
structure FrameBufferSetup where
  attachments : List (Option FrameBufferAttachment)
deriving DecidableEq, Repr

/-- Shader setup: the fields `create_shader` reads. Shader stage text is a
byte list; uniform declarations map hashed names to type tags. -/
structure ShaderSetup where
  vs : List Nat
  fs : List Nat
  uniform_variables : List (HashStr × UniformVariableType)
  render_state : Nat
  layout : Nat
deriving DecidableEq, Repr

/-- Mesh setup: the fields `create_mesh` reads. The source's
`MeshSetup::validate` is not under `src/`; modelled from the spec as an
opaque configuration-validity flag. -/
structure MeshSetup where
  vertex_buffer_len : Nat
  index_buffer_len : Nat
  valid : Bool
  payload : Nat
deriving DecidableEq, Repr

/-- Compiled shader metadata (`ShaderState`): declared uniform types and
names keyed by name hash, as built by `create_shader`. -/
structure ShaderState where
  render_state : Nat
  layout : Nat
  uniform_variables : List (HashStr × UniformVariableType)
  uniform_variable_names : List (HashStr × Nat)
deriving DecidableEq, Repr

/-- Modelled from the spec: mesh readiness state (`MeshState`). -/
inductive MeshState where
  | notReady | ready
deriving DecidableEq, Repr

/-- Modelled from the spec: texture readiness state (`TextureState`). -/
inductive TextureState where
  | notReady | ready
deriving DecidableEq, Repr

/-- Pre-phase task (`PreFrameTask`): resource creation or update executed
before any ordered task of the same frame. -/
inductive PreFrameTask where
  | createSurface (h : SurfaceHandle) (setup : SurfaceSetup)
  | createPipeline (h : ShaderHandle) (setup : ShaderSetup)
  | createFrameBuffer (h : FrameBufferHandle) (setup : FrameBufferSetup)
  | createTexture (h : TextureHandle) (setup : TextureSetup) (data : Option DataBufferPtr)
  | updateTexture (h : TextureHandle) (rect : Rect) (data : DataBufferPtr)
  | createRenderTexture (h : TextureHandle) (setup : RenderTextureSetup)
  | createRenderBuffer (h : RenderBufferHandle) (setup : RenderBufferSetup)
  | createMesh (h : MeshHandle) (setup : MeshSetup)
      (verts : Option DataBufferPtr) (idxes : Option DataBufferPtr)
  | updateVertexBuffer (h : MeshHandle) (offset : Nat) (data : DataBufferPtr)
  | updateIndexBuffer (h : MeshHandle) (offset : Nat) (data : DataBufferPtr)
deriving DecidableEq, Repr

/-- Draw call record (`FrameDrawCall`). -/
structure FrameDrawCall where
  shader : ShaderHandle
  uniforms : DataBufferPtr
  mesh : MeshHandle
  index : MeshIndex
deriving DecidableEq, Repr

/-- Ordered task operation (`FrameTask`). -/
inductive FrameTask where
  | drawCall (dc : FrameDrawCall)
  | updateSurface (sc : Scissor)
  | updateVertexBuffer (h : MeshHandle) (offset : Nat) (data : DataBufferPtr)
  | updateIndexBuffer (h : MeshHandle) (offset : Nat) (data : DataBufferPtr)
  | updateTexture (h : TextureHandle) (rect : Rect) (data : DataBufferPtr)
deriving DecidableEq, Repr

/-- Post-phase task (`PostFrameTask`): deferred resource deletion. -/
inductive PostFrameTask where
  | deleteSurface (h : SurfaceHandle)
  | deletePipeline (h : ShaderHandle)
  | deleteMesh (h : MeshHandle)
  | deleteTexture (h : TextureHandle)
  | deleteRenderBuffer (h : RenderBufferHandle)
  | deleteFrameBuffer (h : FrameBufferHandle)
deriving DecidableEq, Repr

/-- One tick's recorded work (`Frame`): the three task lists plus the
staging arena backing them. -/
structure Frame where
  pre : List PreFrameTask
  tasks : List (SurfaceHandle × Nat × FrameTask)
  post : List PostFrameTask
  buf : DataBuffer
deriving DecidableEq, Repr

/-- Creates a new frame (`Frame::with_capacity`); the arena capacity hint
has no logical effect in the model. -/
def Frame.with_capacity (_capacity : Nat) : Frame :=
  { pre := [], tasks := [], post := [], buf := ⟨[]⟩ }

/-- Clear the frame (`Frame::clear`), removing all recorded work and
resetting the arena. -/
def Frame.clear (f : Frame) : Frame :=
  { f with pre := [], tasks := [], post := [], buf := f.buf.clear }

/-- One call made against the device backend during dispatch. The device
itself is an external collaborator; dispatch is modelled as emitting the
trace of calls it makes. -/
inductive DeviceCall where
  | createSurface (h : SurfaceHandle) (setup : SurfaceSetup)
  | createShader (h : ShaderHandle) (setup : ShaderSetup)
  | createMesh (h : MeshHandle) (setup : MeshSetup)
      (verts : Option (List Int)) (idxes : Option (List Int))
  | updateVertexBuffer (h : MeshHandle) (offset : Nat) (data : List Int)
  | updateIndexBuffer (h : MeshHandle) (offset : Nat) (data : List Int)
  | createTexture (h : TextureHandle) (setup : TextureSetup) (data : Option (List Int))
  | updateTexture (h : TextureHandle) (rect : Rect) (data : List Int)
  | createRenderTexture (h : TextureHandle) (setup : RenderTextureSetup)
  | createRenderBuffer (h : RenderBufferHandle) (setup : RenderBufferSetup)
  | createFramebuffer (h : FrameBufferHandle)
  | updateFramebufferWithRenderbuffer (h : FrameBufferHandle) (rb : RenderBufferHandle) (i : Nat)
  | updateFramebufferWithTexture (h : FrameBufferHandle) (t : TextureHandle) (i : Nat)
  | flush (tasks : List (SurfaceHandle × Nat × FrameTask)) (buf : DataBuffer)
      (dimensions : Nat × Nat) (hidpi : Nat)
  | deleteSurface (h : SurfaceHandle)
  | deleteShader (h : ShaderHandle)
  | deleteMesh (h : MeshHandle)
  | deleteTexture (h : TextureHandle)
  | deleteRenderBuffer (h : RenderBufferHandle)
  | deleteFramebuffer (h : FrameBufferHandle)
deriving DecidableEq, Repr

/-- Resolve a staging-arena token to its byte span (`DataBuffer::as_slice`). -/
def DataBuffer.as_slice (b : DataBuffer) (p : DataBufferPtr) : List Int :=
  (b.data.drop p.offset).take p.len

/-- Device calls one pre-task expands to during dispatch; a framebuffer
creation is followed by one attachment call per present attachment, in
attachment-index order. -/
def preTaskCalls (buf : DataBuffer) : PreFrameTask → List DeviceCall
  | .createSurface h setup => [.createSurface h setup]
  | .createPipeline h setup => [.createShader h setup]
  | .createMesh h setup verts idxes =>
      [.createMesh h setup (verts.map buf.as_slice) (idxes.map buf.as_slice)]
  | .updateVertexBuffer h offset data => [.updateVertexBuffer h offset (buf.as_slice data)]
  | .updateIndexBuffer h offset data => [.updateIndexBuffer h offset (buf.as_slice data)]
  | .createTexture h setup data => [.createTexture h setup (data.map buf.as_slice)]
  | .updateTexture h rect data => [.updateTexture h rect (buf.as_slice data)]
  | .createRenderTexture h setup => [.createRenderTexture h setup]
  | .createRenderBuffer h setup => [.createRenderBuffer h setup]
  | .createFrameBuffer h setup =>
      .createFramebuffer h ::
        (setup.attachments.enum.flatMap (fun x =>
          match x.2 with
          | some (.renderBuffer rb) => [.updateFramebufferWithRenderbuffer h rb x.1]
          | some (.texture t) => [.updateFramebufferWithTexture h t x.1]
          | none => []))

/-- Device call of one post-task. -/
def postTaskCall : PostFrameTask → DeviceCall
  | .deleteSurface h => .deleteSurface h
  | .deletePipeline h => .deleteShader h
  | .deleteMesh h => .deleteMesh h
  | .deleteTexture h => .deleteTexture h
  | .deleteRenderBuffer h => .deleteRenderBuffer h
  | .deleteFrameBuffer h => .deleteFramebuffer h

/-- Run a list of device calls until the first failure, returning the
trace of calls attempted (failed call included) and the success flag. The
predicate `ok` models which device calls succeed. -/
def runCalls (ok : DeviceCall → Bool) : List DeviceCall → List DeviceCall × Bool
  | [] => ([], true)
  | c :: cs =>
      if ok c then
        let r := runCalls ok cs
        (c :: r.1, r.2)
      else ([c], false)

/-- Run the pre-task drain loop of `Frame::dispatch`. -/
def runPre (ok : DeviceCall → Bool) (buf : DataBuffer) :
    List PreFrameTask → List DeviceCall × Bool
  | [] => ([], true)
  | t :: ts =>
      let r := runCalls ok (preTaskCalls buf t)
      if r.2 then
        let r2 := runPre ok buf ts
        (r.1 ++ r2.1, r2.2)
      else (r.1, false)

/-- Run the post-task drain loop of `Frame::dispatch`. -/
def runPost (ok : DeviceCall → Bool) : List PostFrameTask → List DeviceCall × Bool
  | [] => ([], true)
  | t :: ts =>
      if ok (postTaskCall t) then
        let r := runPost ok ts
        (postTaskCall t :: r.1, r.2)
      else ([postTaskCall t], false)

/-- Dispatch the frame against the device (`Frame::dispatch`): drain every
pre-task oldest-first, hand the whole ordered-task list to the device in
one flush call, then drain every post-task oldest-first; the first failing
device call aborts the remainder. Draining a Rust vector empties it even
when the loop aborts early, so the drained lists are cleared on every
path that reaches their loop; the ordered-task list is never drained by
dispatch itself. The device (not under `src/`) is modelled from the spec
by the success predicate `ok` and is not given a chance to mutate the
task list. Returns the mutated frame, the call trace, and success. -/
def Frame.dispatch (ok : DeviceCall → Bool) (dimensions : Nat × Nat) (hidpi : Nat)
    (f : Frame) : Frame × List DeviceCall × Bool :=
  let r1 := runPre ok f.buf f.pre
  if r1.2 then
    let fc : DeviceCall := .flush f.tasks f.buf dimensions hidpi
    if ok fc then
      let r3 := runPost ok f.post
      ({ f with pre := [], post := [] }, r1.1 ++ fc :: r3.1, r3.2)
    else ({ f with pre := [] }, r1.1 ++ [fc], false)
  else ({ f with pre := [] }, r1.1, false)

/-- Device behavior in which every call succeeds. -/
def allOk : DeviceCall → Bool := fun _ => true

/-- Double-buffered frame pair (`DoubleFrame`): two physical frames plus a
role index; the front role receives producer appends, the back role is
dispatched by the driver. -/
structure DoubleFrame where
  idx : Nat
  frame0 : Frame
  frame1 : Frame
deriving DecidableEq, Repr

/-- Creates the double frame with both frames empty (`with_capacity`). -/
def DoubleFrame.with_capacity (capacity : Nat) : DoubleFrame :=
  { idx := 0, frame0 := Frame.with_capacity capacity, frame1 := Frame.with_capacity capacity }

/-- The frame currently playing the front role (`frames[idx]`). -/
def DoubleFrame.front (df : DoubleFrame) : Frame :=
  if df.idx % 2 = 0 then df.frame0 else df.frame1

/-- The frame currently playing the back role (`frames[(idx + 1) % 2]`). -/
def DoubleFrame.back (df : DoubleFrame) : Frame :=
  if (df.idx + 1) % 2 = 0 then df.frame0 else df.frame1

/-- Toggle the role index (`swap_frames`). -/
def DoubleFrame.swap_frames (df : DoubleFrame) : DoubleFrame :=
  { df with idx := (df.idx + 1) % 2 }

/-- Write back a mutated front frame (models mutation through the front
guard). -/
def DoubleFrame.setFront (df : DoubleFrame) (f : Frame) : DoubleFrame :=
  if df.idx % 2 = 0 then { df with frame0 := f } else { df with frame1 := f }

/-- Write back a mutated back frame (models mutation through the back
guard). -/
def DoubleFrame.setBack (df : DoubleFrame) (f : Frame) : DoubleFrame :=
  if (df.idx + 1) % 2 = 0 then { df with frame0 := f } else { df with frame1 := f }

/-- Mutate the front frame in place. -/
def DoubleFrame.modifyFront (df : DoubleFrame) (g : Frame → Frame) : DoubleFrame :=
  df.setFront (g df.front)

/-- One producer append to a frame: a pre-task, an ordered task with its
surface and order key, or a post-task. -/
inductive FrameAppend where
  | pre (t : PreFrameTask)
  | task (s : SurfaceHandle) (o : Nat) (t : FrameTask)
  | post (t : PostFrameTask)
deriving DecidableEq, Repr

/-- Apply one append to a frame (a push onto the corresponding list). -/
def Frame.append (f : Frame) : FrameAppend → Frame
  | .pre t => { f with pre := f.pre ++ [t] }
  | .task s o t => { f with tasks := f.tasks ++ [(s, o, t)] }
  | .post t => { f with post := f.post ++ [t] }

/-- Apply a sequence of producer appends to the front frame. -/
def DoubleFrame.appendAll (df : DoubleFrame) (ts : List FrameAppend) : DoubleFrame :=
  ts.foldl (fun d a => d.modifyFront (fun f => f.append a)) df

/-- The pre-tasks among a sequence of appends, in order. -/
def selectPres (ts : List FrameAppend) : List PreFrameTask :=
  ts.filterMap (fun a => match a with | .pre t => some t | _ => none)

/-- The ordered tasks among a sequence of appends, in order. -/
def selectTasks (ts : List FrameAppend) : List (SurfaceHandle × Nat × FrameTask) :=
  ts.filterMap (fun a => match a with | .task s o t => some (s, o, t) | _ => none)

/-- The post-tasks among a sequence of appends, in order. -/
def selectPosts (ts : List FrameAppend) : List PostFrameTask :=
  ts.filterMap (fun a => match a with | .post t => some t | _ => none)

/-- Driver-side state of the graphics system (`GraphicsSystem`): the parts
of the per-tick `advance` that the frame pipeline claims depend on. The
device, window, and per-tick statistics harvesting are external
collaborators, modelled by the success flags passed to `advance`. -/
structure GraphicsSystem where
  frames : DoubleFrame
deriving DecidableEq, Repr

/-- One driver tick (`GraphicsSystem::advance`), after the role swap has
been performed by the embedding application: query window dimensions
(failure of either query aborts the tick), run the device's per-frame
bookkeeping, dispatch the back frame, and clear it only when dispatch
succeeded — the `?` operator on `dispatch` skips the `clear` call on a
dispatch error, though the dispatch's own drains have already mutated the
back frame. Returns the new state and whether the tick succeeded. -/
def GraphicsSystem.advance (winOk pixOk runOk swapBufOk : Bool)
    (ok : DeviceCall → Bool) (dimensions : Nat × Nat) (hidpi : Nat)
    (sys : GraphicsSystem) : GraphicsSystem × Bool :=
  if !winOk then (sys, false)
  else if !pixOk then (sys, false)
  else if !runOk then (sys, false)
  else
    let r := sys.frames.back.dispatch ok dimensions hidpi
    if r.2.2 then
      let sys' : GraphicsSystem := { frames := sys.frames.setBack r.1.clear }
      if swapBufOk then (sys', true) else (sys', false)
    else ({ frames := sys.frames.setBack r.1 }, false)

/-- Error values of the facade's fallible calls, one per `bail!` site. -/
inductive GfxError where
  | undefinedSurfaceHandle
  | undefinedMeshHandle
  | undefinedShaderStateHandle
  | unmatchedUniformVariable
  | undefinedUniformVariable
  | tooManyUniformVariables
  | vertexShaderRequired
  | fragmentShaderRequired
  | outOfBounds
  | invalidMeshSetup
  | invalidHandle
deriving DecidableEq, Repr

/-- Outcome of one facade call: a returned value, a returned error, or an
abnormal termination (Rust panic). -/
inductive CallResult (α : Type) where
  | ok (a : α)
  | err (e : GfxError)
  | panicked
deriving DecidableEq, Repr

/-- Whether the call returned an error (a panic is not a returned error). -/
def CallResult.isErr : CallResult α → Bool
  | .err _ => true
  | _ => false

/-- Forget a call's returned value, keeping its outcome. -/
def CallResult.discard : CallResult α → CallResult Unit
  | .ok _ => .ok ()
  | .err e => .err e
  | .panicked => .panicked

/-- Modelled from the spec: the hard cap on declared uniform variables
(`MAX_UNIFORM_VARIABLES`, defined outside `src/`); the concrete value is
implementation-defined and does not affect the claims. -/
def MAX_UNIFORM_VARIABLES : Nat := 32

/-- Insert-or-overwrite into an association list, modelling `HashMap::insert`. -/
def assocInsert (l : List (HashStr × β)) (k : HashStr) (v : β) : List (HashStr × β) :=
  if l.any (fun e => e.1 == k) then l.map (fun e => if e.1 == k then (k, v) else e)
  else l ++ [(k, v)]

/-- Lookup in an association list, modelling `HashMap::get`. -/
def assocFind (l : List (HashStr × β)) (k : HashStr) : Option β :=
  (l.find? (fun e => e.1 == k)).map (fun e => e.2)

/-- The declared-uniform type map built by `create_shader`. -/
def buildUniformTypes (uvs : List (HashStr × UniformVariableType)) :
    List (HashStr × UniformVariableType) :=
  uvs.foldl (fun m e => assocInsert m e.1 e.2) []

/-- The uniform-name map built by `create_shader`; the stored name string
is modelled by its own hash, so the map records exactly the declared keys. -/
def buildUniformNames (uvs : List (HashStr × UniformVariableType)) :
    List (HashStr × Nat) :=
  uvs.foldl (fun m e => assocInsert m e.1 e.1) []

/-- Draw call as submitted by the caller (`SliceDrawCall`): shader, the
supplied uniform set, mesh and sub-range selector. -/
structure SliceDrawCall where
  shader : ShaderHandle
  uniforms : List (HashStr × UniformVariable)
  mesh : MeshHandle
  index : MeshIndex
deriving DecidableEq, Repr

/-- Modelled from the spec: a `Command` routed through `submit` — a draw
call or one of the update/scissor operations of §4.5. -/
inductive Command where
  | drawCall (dc : SliceDrawCall)
  | vertexBufferUpdate (mesh : MeshHandle) (offset : Nat) (data : List Int)
  | indexBufferUpdate (mesh : MeshHandle) (offset : Nat) (data : List Int)
  | textureUpdate (texture : TextureHandle) (rect : Rect) (data : List Int)
  | setScissor (sc : Scissor)
deriving DecidableEq, Repr

/-- The multi-thread friendly parts of the graphics system
(`GraphicsSystemShared`): the six per-category registries plus the shared
double frame. The async resource loader is an external collaborator. -/
structure GraphicsSystemShared where
  frames : DoubleFrame
  surfaces : Registery Unit
  shaders : Registery ShaderState
  framebuffers : Registery Unit
  render_buffers : Registery Unit
  meshes : Registery MeshState
  textures : Registery TextureState
deriving DecidableEq, Repr

/-- Fresh facade state with empty registries and empty frames. -/
def GraphicsSystemShared.new : GraphicsSystemShared :=
  { frames := DoubleFrame.with_capacity (64 * 1024)
    surfaces := Registery.new Unit
    shaders := Registery.new ShaderState
    framebuffers := Registery.new Unit
    render_buffers := Registery.new Unit
    meshes := Registery.new MeshState
    textures := Registery.new TextureState }

/-- Mutate the front frame through its guard. -/
def GraphicsSystemShared.modifyFront (st : GraphicsSystemShared) (g : Frame → Frame) :
    GraphicsSystemShared :=
  { st with frames := st.frames.modifyFront g }

/-- Creates a surface (`create_surface`): registry create with a unique
location, then push of the creation pre-task. -/
def GraphicsSystemShared.create_surface (st : GraphicsSystemShared) (setup : SurfaceSetup) :
    GraphicsSystemShared × CallResult SurfaceHandle :=
  let r := st.surfaces.create (Location.unique 0) ()
  let st' := { st with surfaces := r.1 }
  (st'.modifyFront (fun f => { f with pre := f.pre ++ [PreFrameTask.createSurface r.2 setup] }),
    .ok r.2)

/-- Delete surface object (`delete_surface`): reference-counted; a post-task
is pushed only when the count reaches zero. The source returns `()`. -/
def GraphicsSystemShared.delete_surface (st : GraphicsSystemShared) (h : SurfaceHandle) :
    GraphicsSystemShared × CallResult Unit :=
  let r := st.surfaces.dec_rc h true
  let st' := { st with surfaces := r.1 }
  match r.2 with
  | some _ =>
      (st'.modifyFront (fun f => { f with post := f.post ++ [PostFrameTask.deleteSurface h] }),
        .ok ())
  | none => (st', .ok ())

/-- Lookup shader handle by location (`lookup_shader_from`). -/
def GraphicsSystemShared.lookup_shader_from (st : GraphicsSystemShared) (location : Location) :
    Option ShaderHandle :=
  st.shaders.lookup location

/-- Create a shader (`create_shader`): validates the setup, deduplicates on
a shared location (incrementing the count and discarding the setup),
otherwise builds the shader state, creates the slot and pushes the
creation pre-task. -/
def GraphicsSystemShared.create_shader (st : GraphicsSystemShared) (location : Location)
    (setup : ShaderSetup) : GraphicsSystemShared × CallResult ShaderHandle :=
  if setup.uniform_variables.length > MAX_UNIFORM_VARIABLES then
    (st, .err .tooManyUniformVariables)
  else if setup.vs.length = 0 then (st, .err .vertexShaderRequired)
  else if setup.fs.length = 0 then (st, .err .fragmentShaderRequired)
  else
    match st.shaders.lookup location with
    | some h => ({ st with shaders := st.shaders.inc_rc h }, .ok h)
    | none =>
        let shader_state : ShaderState :=
          { render_state := setup.render_state
            layout := setup.layout
            uniform_variables := buildUniformTypes setup.uniform_variables
            uniform_variable_names := buildUniformNames setup.uniform_variables }
        let r := st.shaders.create location shader_state
        let st' := { st with shaders := r.1 }
        (st'.modifyFront (fun f => { f with pre := f.pre ++ [PreFrameTask.createPipeline r.2 setup] }),
          .ok r.2)

/-- Delete shader object (`delete_shader`). -/
def GraphicsSystemShared.delete_shader (st : GraphicsSystemShared) (h : ShaderHandle) :
    GraphicsSystemShared × CallResult Unit :=
  let r := st.shaders.dec_rc h true
  let st' := { st with shaders := r.1 }
  match r.2 with
  | some _ =>
      (st'.modifyFront (fun f => { f with post := f.post ++ [PostFrameTask.deletePipeline h] }),
        .ok ())
  | none => (st', .ok ())

/-- Create a framebuffer (`create_framebuffer`); the attachment handles are
not validated. -/
def GraphicsSystemShared.create_framebuffer (st : GraphicsSystemShared)
    (setup : FrameBufferSetup) : GraphicsSystemShared × CallResult FrameBufferHandle :=
  let r := st.framebuffers.create (Location.unique 0) ()
  let st' := { st with framebuffers := r.1 }
  (st'.modifyFront (fun f => { f with pre := f.pre ++ [PreFrameTask.createFrameBuffer r.2 setup] }),
    .ok r.2)

/-- Delete framebuffer object (`delete_framebuffer`). -/
def GraphicsSystemShared.delete_framebuffer (st : GraphicsSystemShared) (h : FrameBufferHandle) :
    GraphicsSystemShared × CallResult Unit :=
  let r := st.framebuffers.dec_rc h true
  let st' := { st with framebuffers := r.1 }
  match r.2 with
  | some _ =>
      (st'.modifyFront (fun f => { f with post := f.post ++ [PostFrameTask.deleteFrameBuffer h] }),
        .ok ())
  | none => (st', .ok ())

/-- Create a render buffer (`create_render_buffer`). -/
def GraphicsSystemShared.create_render_buffer (st : GraphicsSystemShared)
    (setup : RenderBufferSetup) : GraphicsSystemShared × CallResult RenderBufferHandle :=
  let r := st.render_buffers.create (Location.unique 0) ()
  let st' := { st with render_buffers := r.1 }
  (st'.modifyFront (fun f => { f with pre := f.pre ++ [PreFrameTask.createRenderBuffer r.2 setup] }),
    .ok r.2)

/-- Delete render buffer object (`delete_render_buffer`). -/
def GraphicsSystemShared.delete_render_buffer (st : GraphicsSystemShared)
    (h : RenderBufferHandle) : GraphicsSystemShared × CallResult Unit :=
  let r := st.render_buffers.dec_rc h true
  let st' := { st with render_buffers := r.1 }
  match r.2 with
  | some _ =>
      (st'.modifyFront (fun f => { f with post := f.post ++ [PostFrameTask.deleteRenderBuffer h] }),
        .ok ())
  | none => (st', .ok ())

/-- Whether an optional supplied byte span exceeds a declared buffer
length (the bounds check of `create_mesh`). -/
def exceedsSpan : Option (List Int) → Nat → Bool
  | some b, cap => decide (b.length > cap)
  | none, _ => false

/-- Lookup mesh handle by location (`lookup_mesh_from`). -/
def GraphicsSystemShared.lookup_mesh_from (st : GraphicsSystemShared) (location : Location) :
    Option MeshHandle :=
  st.meshes.lookup location

/-- Create a mesh from a location via the async loader (`create_mesh_from`):
deduplicates on the location, otherwise creates a not-ready slot; the
loader (an external collaborator) pushes the creation pre-task itself on
completion, so this call records nothing into the frame. -/
def GraphicsSystemShared.create_mesh_from (st : GraphicsSystemShared) (location : Location)
    (_setup : MeshSetup) : GraphicsSystemShared × CallResult MeshHandle :=
  match st.meshes.lookup location with
  | some h => ({ st with meshes := st.meshes.inc_rc h }, .ok h)
  | none =>
      let r := st.meshes.create location MeshState.notReady
      ({ st with meshes := r.1 }, .ok r.2)

/-- Create a mesh object (`create_mesh`): rejects byte spans exceeding the
setup's declared lengths and invalid setups, deduplicates on the location,
otherwise creates a ready slot, stages the byte spans and pushes the
creation pre-task. -/
def GraphicsSystemShared.create_mesh (st : GraphicsSystemShared) (location : Location)
    (setup : MeshSetup) (verts idxes : Option (List Int)) :
    GraphicsSystemShared × CallResult MeshHandle :=
  if exceedsSpan verts setup.vertex_buffer_len then (st, .err .outOfBounds)
  else if exceedsSpan idxes setup.index_buffer_len then (st, .err .outOfBounds)
  else if !setup.valid then (st, .err .invalidMeshSetup)
  else
    match st.meshes.lookup location with
    | some h => ({ st with meshes := st.meshes.inc_rc h }, .ok h)
    | none =>
        let r := st.meshes.create location MeshState.ready
        let st' := { st with meshes := r.1 }
        let frame := st'.frames.front
        let rv : DataBuffer × Option DataBufferPtr :=
          match verts with
          | some b =>
              let e := frame.buf.extend_from_slice b
              (e.1, some e.2)
          | none => (frame.buf, none)
        let ri : DataBuffer × Option DataBufferPtr :=
          match idxes with
          | some b =>
              let e := rv.1.extend_from_slice b
              (e.1, some e.2)
          | none => (rv.1, none)
        let frame' :=
          { frame with
              buf := ri.1
              pre := frame.pre ++ [PreFrameTask.createMesh r.2 setup rv.2 ri.2] }
        ({ st' with frames := st'.frames.setFront frame' }, .ok r.2)

/-- Update a subset of a dynamic vertex buffer (`update_vertex_buffer`):
validates the mesh handle, stages the bytes and pushes a pre-task. -/
def GraphicsSystemShared.update_vertex_buffer (st : GraphicsSystemShared) (mesh : MeshHandle)
    (offset : Nat) (data : List Int) : GraphicsSystemShared × CallResult Unit :=
  if st.meshes.is_alive mesh then
    let frame := st.frames.front
    let e := frame.buf.extend_from_slice data
    let frame' :=
      { frame with
          buf := e.1
          pre := frame.pre ++ [PreFrameTask.updateVertexBuffer mesh offset e.2] }
    ({ st with frames := st.frames.setFront frame' }, .ok ())
  else (st, .err .invalidHandle)

/-- Update a subset of a dynamic index buffer (`update_index_buffer`). -/
def GraphicsSystemShared.update_index_buffer (st : GraphicsSystemShared) (mesh : MeshHandle)
    (offset : Nat) (data : List Int) : GraphicsSystemShared × CallResult Unit :=
  if st.meshes.is_alive mesh then
    let frame := st.frames.front
    let e := frame.buf.extend_from_slice data
    let frame' :=
      { frame with
          buf := e.1
          pre := frame.pre ++ [PreFrameTask.updateIndexBuffer mesh offset e.2] }
    ({ st with frames := st.frames.setFront frame' }, .ok ())
  else (st, .err .invalidHandle)

/-- Delete mesh object (`delete_mesh`). The source returns `()`, so a dead
handle is silently ignored. -/
def GraphicsSystemShared.delete_mesh (st : GraphicsSystemShared) (mesh : MeshHandle) :
    GraphicsSystemShared × CallResult Unit :=
  let r := st.meshes.dec_rc mesh true
  let st' := { st with meshes := r.1 }
  match r.2 with
  | some _ =>
      (st'.modifyFront (fun f => { f with post := f.post ++ [PostFrameTask.deleteMesh mesh] }),
        .ok ())
  | none => (st', .ok ())

/-- Lookup texture handle by location (`lookup_texture_from`). -/
def GraphicsSystemShared.lookup_texture_from (st : GraphicsSystemShared) (location : Location) :
    Option TextureHandle :=
  st.textures.lookup location

/-- Create a texture from a location via the async loader
(`create_texture_from`): deduplicates, otherwise creates a not-ready slot;
the loader pushes the creation pre-task itself on completion. -/
def GraphicsSystemShared.create_texture_from (st : GraphicsSystemShared) (location : Location)
    (_setup : TextureSetup) : GraphicsSystemShared × CallResult TextureHandle :=
  match st.textures.lookup location with
  | some h => ({ st with textures := st.textures.inc_rc h }, .ok h)
  | none =>
      let r := st.textures.create location TextureState.notReady
      ({ st with textures := r.1 }, .ok r.2)

/-- Create a texture object (`create_texture`): deduplicates on the
location, otherwise creates a ready slot, stages the optional pixel bytes
and pushes the creation pre-task. -/
def GraphicsSystemShared.create_texture (st : GraphicsSystemShared) (location : Location)
    (setup : TextureSetup) (data : Option (List Int)) :
    GraphicsSystemShared × CallResult TextureHandle :=
  match st.textures.lookup location with
  | some h => ({ st with textures := st.textures.inc_rc h }, .ok h)
  | none =>
      let r := st.textures.create location TextureState.ready
      let st' := { st with textures := r.1 }
      let frame := st'.frames.front
      let rd : DataBuffer × Option DataBufferPtr :=
        match data with
        | some b =>
            let e := frame.buf.extend_from_slice b
            (e.1, some e.2)
        | none => (frame.buf, none)
      let frame' :=
        { frame with
            buf := rd.1
            pre := frame.pre ++ [PreFrameTask.createTexture r.2 setup rd.2] }
      ({ st' with frames := st'.frames.setFront frame' }, .ok r.2)

/-- Create a render texture (`create_render_texture`). -/
def GraphicsSystemShared.create_render_texture (st : GraphicsSystemShared)
    (setup : RenderTextureSetup) : GraphicsSystemShared × CallResult TextureHandle :=
  let r := st.textures.create (Location.unique 0) TextureState.ready
  let st' := { st with textures := r.1 }
  (st'.modifyFront (fun f => { f with pre := f.pre ++ [PreFrameTask.createRenderTexture r.2 setup] }),
    .ok r.2)

/-- Update the texture object (`update_texture`): an invalid handle is an
error; a live but not-ready texture is a silent no-op (the async load has
not completed); a ready texture gets its bytes staged and a pre-task
pushed. -/
def GraphicsSystemShared.update_texture (st : GraphicsSystemShared) (texture : TextureHandle)
    (rect : Rect) (data : List Int) : GraphicsSystemShared × CallResult Unit :=
  match st.textures.get texture with
  | some state =>
      if state = TextureState.ready then
        let frame := st.frames.front
        let e := frame.buf.extend_from_slice data
        let frame' :=
          { frame with
              buf := e.1
              pre := frame.pre ++ [PreFrameTask.updateTexture texture rect e.2] }
        ({ st with frames := st.frames.setFront frame' }, .ok ())
      else (st, .ok ())
  | none => (st, .err .invalidHandle)

/-- Delete the texture object (`delete_texture`). -/
def GraphicsSystemShared.delete_texture (st : GraphicsSystemShared) (h : TextureHandle) :
    GraphicsSystemShared × CallResult Unit :=
  let r := st.textures.dec_rc h true
  let st' := { st with textures := r.1 }
  match r.2 with
  | some _ =>
      (st'.modifyFront (fun f => { f with post := f.post ++ [PostFrameTask.deleteTexture h] }),
        .ok ())
  | none => (st', .ok ())

/-- Result of the pack-and-validate uniform loop of `submit_drawcall`.
Arena writes made before an abort persist, since the loop mutates the
locked frame's buffer in place. An undeclared name whose entry is also
absent from `uniform_variable_names` terminates abnormally: the source
indexes that map with the missing key while formatting its error message,
which panics. -/
inductive PackResult where
  | ok (buf : DataBuffer) (pack : List (HashStr × DataBufferPtr))
  | err (buf : DataBuffer) (e : GfxError)
  | panicked (buf : DataBuffer)
deriving DecidableEq, Repr

/-- The pack-and-validate loop of `submit_drawcall`: for each supplied
uniform, an undeclared name or mismatched type tag aborts the whole
submission; accepted values are staged into the arena as they are
validated. -/
def packUniforms (shader : ShaderState) (buf : DataBuffer)
    (pack : List (HashStr × DataBufferPtr)) :
    List (HashStr × UniformVariable) → PackResult
  | [] => .ok buf pack
  | (n, v) :: rest =>
      match assocFind shader.uniform_variables n with
      | some tt =>
          if tt = v.variable_type then
            let e := buf.extend v
            packUniforms shader e.1 (pack ++ [(n, e.2)]) rest
          else
            match assocFind shader.uniform_variable_names n with
            | some _ => .err buf .unmatchedUniformVariable
            | none => .panicked buf
      | none =>
          match assocFind shader.uniform_variable_names n with
          | some _ => .err buf .undefinedUniformVariable
          | none => .panicked buf

/-- Submit a draw call (`submit_drawcall`): validates the mesh handle,
resolves the bound shader's state, packs and validates the supplied
uniforms (staging accepted values), then stages the packed array and
pushes one ordered task. Aborts before the task push leave the staged
bytes in the arena but no task. -/
def GraphicsSystemShared.submit_drawcall (st : GraphicsSystemShared) (surface : SurfaceHandle)
    (order : Nat) (dc : SliceDrawCall) : GraphicsSystemShared × CallResult Unit :=
  if !(st.meshes.is_alive dc.mesh) then (st, .err .undefinedMeshHandle)
  else
    let frame := st.frames.front
    match st.shaders.get dc.shader with
    | none => (st, .err .undefinedShaderStateHandle)
    | some shader =>
        match packUniforms shader frame.buf [] dc.uniforms with
        | .ok buf pack =>
            let e := buf.extendPack pack
            let fdc : FrameDrawCall :=
              { shader := dc.shader, uniforms := e.2, mesh := dc.mesh, index := dc.index }
            let frame' :=
              { frame with
                  buf := e.1
                  tasks := frame.tasks ++ [(surface, order, FrameTask.drawCall fdc)] }
            ({ st with frames := st.frames.setFront frame' }, .ok ())
        | .err buf e =>
            ({ st with frames := st.frames.setFront { frame with buf := buf } }, .err e)
        | .panicked buf =>
            ({ st with frames := st.frames.setFront { frame with buf := buf } }, .panicked)

/-- Submit a scissor update (`submit_set_scissor`). -/
def GraphicsSystemShared.submit_set_scissor (st : GraphicsSystemShared)
    (surface : SurfaceHandle) (order : Nat) (sc : Scissor) :
    GraphicsSystemShared × CallResult Unit :=
  if !(st.surfaces.is_alive surface) then (st, .err .undefinedSurfaceHandle)
  else
    (st.modifyFront (fun f =>
      { f with tasks := f.tasks ++ [(surface, order, FrameTask.updateSurface sc)] }), .ok ())

/-- Submit an ordered vertex-buffer update (`submit_update_vertex_buffer`). -/
def GraphicsSystemShared.submit_update_vertex_buffer (st : GraphicsSystemShared)
    (surface : SurfaceHandle) (order : Nat) (mesh : MeshHandle) (offset : Nat)
    (data : List Int) : GraphicsSystemShared × CallResult Unit :=
  if !(st.surfaces.is_alive surface) then (st, .err .undefinedSurfaceHandle)
  else if st.meshes.is_alive mesh then
    let frame := st.frames.front
    let e := frame.buf.extend_from_slice data
    let frame' :=
      { frame with
          buf := e.1
          tasks := frame.tasks ++ [(surface, order, FrameTask.updateVertexBuffer mesh offset e.2)] }
    ({ st with frames := st.frames.setFront frame' }, .ok ())
  else (st, .err .invalidHandle)

/-- Submit an ordered index-buffer update (`submit_update_index_buffer`). -/
def GraphicsSystemShared.submit_update_index_buffer (st : GraphicsSystemShared)
    (surface : SurfaceHandle) (order : Nat) (mesh : MeshHandle) (offset : Nat)
    (data : List Int) : GraphicsSystemShared × CallResult Unit :=
  if !(st.surfaces.is_alive surface) then (st, .err .undefinedSurfaceHandle)
  else if st.meshes.is_alive mesh then
    let frame := st.frames.front
    let e := frame.buf.extend_from_slice data
    let frame' :=
      { frame with
          buf := e.1
          tasks := frame.tasks ++ [(surface, order, FrameTask.updateIndexBuffer mesh offset e.2)] }
    ({ st with frames := st.frames.setFront frame' }, .ok ())
  else (st, .err .invalidHandle)

/-- Submit an ordered texture update (`submit_update_texture`): an invalid
texture handle is an error; a live but not-ready texture is a silent
no-op; a ready texture gets its bytes staged and one ordered task pushed. -/
def GraphicsSystemShared.submit_update_texture (st : GraphicsSystemShared)
    (surface : SurfaceHandle) (order : Nat) (texture : TextureHandle) (rect : Rect)
    (data : List Int) : GraphicsSystemShared × CallResult Unit :=
  if !(st.surfaces.is_alive surface) then (st, .err .undefinedSurfaceHandle)
  else
    match st.textures.get texture with
    | some state =>
        if state = TextureState.ready then
          let frame := st.frames.front
          let e := frame.buf.extend_from_slice data
          let frame' :=
            { frame with
                buf := e.1
                tasks := frame.tasks ++ [(surface, order, FrameTask.updateTexture texture rect e.2)] }
          ({ st with frames := st.frames.setFront frame' }, .ok ())
        else (st, .ok ())
    | none => (st, .err .invalidHandle)

/-- Submit a task into a named bucket (`submit`): validates the surface
handle, then routes the command. -/
def GraphicsSystemShared.submit (st : GraphicsSystemShared) (s : SurfaceHandle) (o : Nat)
    (task : Command) : GraphicsSystemShared × CallResult Unit :=
  if !(st.surfaces.is_alive s) then (st, .err .undefinedSurfaceHandle)
  else
    match task with
    | .drawCall dc => st.submit_drawcall s o dc
    | .vertexBufferUpdate m off d => st.submit_update_vertex_buffer s o m off d
    | .indexBufferUpdate m off d => st.submit_update_index_buffer s o m off d
    | .textureUpdate t r d => st.submit_update_texture s o t r d
    | .setScissor sc => st.submit_set_scissor s o sc

/-- One public mutating call of the Submission Facade; the read-only
accessors (`lookup_*`, `dimensions`, `shader_state`, `is_shader_alive`)
never mutate and never return a `Result`, so they are not included. -/
inductive FacadeOp where
  | createSurface (setup : SurfaceSetup)
  | createShader (location : Location) (setup : ShaderSetup)
  | createFramebuffer (setup : FrameBufferSetup)
  | createRenderBuffer (setup : RenderBufferSetup)
  | createMesh (location : Location) (setup : MeshSetup) (verts idxes : Option (List Int))
  | createMeshFrom (location : Location) (setup : MeshSetup)
  | createTexture (location : Location) (setup : TextureSetup) (data : Option (List Int))
  | createTextureFrom (location : Location) (setup : TextureSetup)
  | createRenderTexture (setup : RenderTextureSetup)
  | updateVertexBuffer (mesh : MeshHandle) (offset : Nat) (data : List Int)
  | updateIndexBuffer (mesh : MeshHandle) (offset : Nat) (data : List Int)
  | updateTexture (texture : TextureHandle) (rect : Rect) (data : List Int)
  | submit (s : SurfaceHandle) (o : Nat) (cmd : Command)
  | deleteSurface (h : SurfaceHandle)
  | deleteShader (h : ShaderHandle)
  | deleteFramebuffer (h : FrameBufferHandle)
  | deleteRenderBuffer (h : RenderBufferHandle)
  | deleteMesh (h : MeshHandle)
  | deleteTexture (h : TextureHandle)
deriving DecidableEq, Repr

/-- Apply one facade call to the shared state, forgetting returned handles. -/
def applyOp (st : GraphicsSystemShared) : FacadeOp → GraphicsSystemShared × CallResult Unit
  | .createSurface setup =>
      let r := st.create_surface setup
      (r.1, r.2.discard)
  | .createShader location setup =>
      let r := st.create_shader location setup
      (r.1, r.2.discard)
  | .createFramebuffer setup =>
      let r := st.create_framebuffer setup
      (r.1, r.2.discard)
  | .createRenderBuffer setup =>
      let r := st.create_render_buffer setup
      (r.1, r.2.discard)
  | .createMesh location setup verts idxes =>
      let r := st.create_mesh location setup verts idxes
      (r.1, r.2.discard)
  | .createMeshFrom location setup =>
      let r := st.create_mesh_from location setup
      (r.1, r.2.discard)
  | .createTexture location setup data =>
      let r := st.create_texture location setup data
      (r.1, r.2.discard)
  | .createTextureFrom location setup =>
      let r := st.create_texture_from location setup
      (r.1, r.2.discard)
  | .createRenderTexture setup =>
      let r := st.create_render_texture setup
      (r.1, r.2.discard)
  | .updateVertexBuffer mesh offset data => st.update_vertex_buffer mesh offset data
  | .updateIndexBuffer mesh offset data => st.update_index_buffer mesh offset data
  | .updateTexture texture rect data => st.update_texture texture rect data
  | .submit s o cmd => st.submit s o cmd
  | .deleteSurface h => st.delete_surface h
  | .deleteShader h => st.delete_shader h
  | .deleteFramebuffer h => st.delete_framebuffer h
  | .deleteRenderBuffer h => st.delete_render_buffer h
  | .deleteMesh h => st.delete_mesh h
  | .deleteTexture h => st.delete_texture h

/-- Whether the call is a draw-call submission, the one operation whose
failure can leave already-validated uniform bytes staged in the arena. -/
def FacadeOp.isDrawCallSubmit : FacadeOp → Bool
  | .submit _ _ (.drawCall _) => true
  | _ => false

/-!
Lemmas about dispatch under a device on which every call succeeds.
-/

theorem runCalls_allOk (cs : List DeviceCall) : runCalls allOk cs = (cs, true) := by
  induction cs with
  | nil => rfl
  | cons c cs ih => simp [runCalls, allOk, ih]

theorem runPre_allOk (buf : DataBuffer) (ts : List PreFrameTask) :
    runPre allOk buf ts = (ts.flatMap (preTaskCalls buf), true) := by
  induction ts with
  | nil => rfl
  | cons t ts ih => simp [runPre, runCalls_allOk, ih]

theorem runPost_allOk (ts : List PostFrameTask) :
    runPost allOk ts = (ts.map postTaskCall, true) := by
  induction ts with
  | nil => rfl
  | cons t ts ih => simp [runPost, allOk, ih]

/-- C1: dispatch executes the frame's recorded work in three strict
phases: the device-call trace is exactly every pre-task's calls
oldest-first, then one flush call carrying the entire ordered-task list,
then every post-task's call oldest-first — for every frame, hence
regardless of the order in which the tasks were appended; in particular no
ordered task runs before any pre-task and no post-task runs before the
flush. -/
theorem dispatch_three_phases (f : Frame) (dimensions : Nat × Nat) (hidpi : Nat) :
    (f.dispatch allOk dimensions hidpi).2 =
      (f.pre.flatMap (preTaskCalls f.buf) ++
        DeviceCall.flush f.tasks f.buf dimensions hidpi :: f.post.map postTaskCall,
        true) := by
  simp [Frame.dispatch, runPre_allOk, runPost_allOk, allOk]

/-- C10: for every device behavior — any pre-task, flush, or post-task may
fail — dispatch leaves the pre-task list empty, because the drain loop
removes all elements even when dropped early; and when the pre phase
succeeded but the flush call failed, the ordered-task list is left in
place, untouched. -/
theorem dispatch_drains_pre_keeps_tasks (ok : DeviceCall → Bool) (dimensions : Nat × Nat)
    (hidpi : Nat) (f : Frame) :
    (f.dispatch ok dimensions hidpi).1.pre = [] ∧
      ((runPre ok f.buf f.pre).2 = true →
        ok (DeviceCall.flush f.tasks f.buf dimensions hidpi) = false →
        (f.dispatch ok dimensions hidpi).1.tasks = f.tasks ∧
          (f.dispatch ok dimensions hidpi).1.post = f.post) := by
  constructor
  · cases hp : (runPre ok f.buf f.pre).2 <;>
      cases hf : ok (DeviceCall.flush f.tasks f.buf dimensions hidpi) <;>
        simp [Frame.dispatch, hp, hf]
  · intro h1 h2
    simp [Frame.dispatch, h1, h2]

/-- Device behavior fixture on which exactly the flush call fails. -/
def okFlushFails : DeviceCall → Bool
  | .flush _ _ _ _ => false
  | _ => true

/-- Frame fixture holding one task of each phase. -/
def frSample : Frame :=
  { pre := [PreFrameTask.createSurface 0 0],
    tasks := [(0, 0, FrameTask.updateSurface 0)],
    post := [PostFrameTask.deleteSurface 0], buf := ⟨[]⟩ }

/-- Witness for the dispatch-drain theorem: a frame with one task of each
phase dispatched against a device that fails the flush call. -/
theorem dispatch_drains_pre_keeps_tasks_witness :
    (frSample.dispatch okFlushFails (1, 1) 1).1.pre = [] ∧
      (frSample.dispatch okFlushFails (1, 1) 1).1.tasks = frSample.tasks :=
  ⟨(dispatch_drains_pre_keeps_tasks okFlushFails (1, 1) 1 frSample).1,
    ((dispatch_drains_pre_keeps_tasks okFlushFails (1, 1) 1 frSample).2
      (by decide) (by decide)).1⟩

/-!
Lemmas about the double frame's role accounting.
-/

theorem setFront_front (df : DoubleFrame) (f : Frame) : (df.setFront f).front = f := by
  rcases Nat.mod_two_eq_zero_or_one df.idx with h | h <;>
    simp [DoubleFrame.setFront, DoubleFrame.front, h]

theorem setFront_back (df : DoubleFrame) (f : Frame) : (df.setFront f).back = df.back := by
  rcases Nat.mod_two_eq_zero_or_one df.idx with h | h <;>
    simp [DoubleFrame.setFront, DoubleFrame.back, h, Nat.add_mod]

theorem setBack_back (df : DoubleFrame) (f : Frame) : (df.setBack f).back = f := by
  rcases Nat.mod_two_eq_zero_or_one df.idx with h | h <;>
    simp [DoubleFrame.setBack, DoubleFrame.back, h, Nat.add_mod]

theorem setBack_front (df : DoubleFrame) (f : Frame) : (df.setBack f).front = df.front := by
  rcases Nat.mod_two_eq_zero_or_one df.idx with h | h <;>
    simp [DoubleFrame.setBack, DoubleFrame.front, h, Nat.add_mod]

theorem swap_frames_front (df : DoubleFrame) : df.swap_frames.front = df.back := by
  rcases Nat.mod_two_eq_zero_or_one df.idx with h | h <;>
    simp [DoubleFrame.swap_frames, DoubleFrame.front, DoubleFrame.back, h, Nat.add_mod]

theorem swap_frames_back (df : DoubleFrame) : df.swap_frames.back = df.front := by
  rcases Nat.mod_two_eq_zero_or_one df.idx with h | h <;>
    simp [DoubleFrame.swap_frames, DoubleFrame.front, DoubleFrame.back, h, Nat.add_mod]

theorem modifyFront_front (df : DoubleFrame) (g : Frame → Frame) :
    (df.modifyFront g).front = g df.front := by
  simp [DoubleFrame.modifyFront, setFront_front]

theorem modifyFront_back (df : DoubleFrame) (g : Frame → Frame) :
    (df.modifyFront g).back = df.back := by
  simp [DoubleFrame.modifyFront, setFront_back]

theorem appendAll_back (df : DoubleFrame) (ts : List FrameAppend) :
    (df.appendAll ts).back = df.back := by
  induction ts generalizing df with
  | nil => rfl
  | cons a ts ih => simp [DoubleFrame.appendAll, List.foldl_cons] at ih ⊢
                    rw [ih, modifyFront_back]

theorem appendAll_front (df : DoubleFrame) (ts : List FrameAppend) :
    (df.appendAll ts).front = ts.foldl Frame.append df.front := by
  induction ts generalizing df with
  | nil => rfl
  | cons a ts ih => simp [DoubleFrame.appendAll, List.foldl_cons] at ih ⊢
                    rw [ih, modifyFront_front]

theorem foldl_append_pre (ts : List FrameAppend) (f : Frame) :
    (ts.foldl Frame.append f).pre = f.pre ++ selectPres ts := by
  induction ts generalizing f with
  | nil => simp [selectPres]
  | cons a ts ih =>
      cases a <;> simp [Frame.append, selectPres, List.filterMap_cons, ih]

theorem foldl_append_tasks (ts : List FrameAppend) (f : Frame) :
    (ts.foldl Frame.append f).tasks = f.tasks ++ selectTasks ts := by
  induction ts generalizing f with
  | nil => simp [selectTasks]
  | cons a ts ih =>
      cases a <;> simp [Frame.append, selectTasks, List.filterMap_cons, ih]

theorem foldl_append_post (ts : List FrameAppend) (f : Frame) :
    (ts.foldl Frame.append f).post = f.post ++ selectPosts ts := by
  induction ts generalizing f with
  | nil => simp [selectPosts]
  | cons a ts ih =>
      cases a <;> simp [Frame.append, selectPosts, List.filterMap_cons, ih]

/-- C6: starting from an empty back frame (as after the driver's clear)
and an empty front frame, appending any sequence of tasks to the front and
then swapping leaves the new front frame empty and the new back frame
holding exactly the appended records of each phase, unmodified and in
append order. -/
theorem double_buffer_isolation (df : DoubleFrame) (ts : List FrameAppend)
    (hfp : df.front.pre = []) (hft : df.front.tasks = []) (hfo : df.front.post = [])
    (hbp : df.back.pre = []) (hbt : df.back.tasks = []) (hbo : df.back.post = []) :
    ((df.appendAll ts).swap_frames.front.pre = [] ∧
      (df.appendAll ts).swap_frames.front.tasks = [] ∧
      (df.appendAll ts).swap_frames.front.post = []) ∧
    ((df.appendAll ts).swap_frames.back.pre = selectPres ts ∧
      (df.appendAll ts).swap_frames.back.tasks = selectTasks ts ∧
      (df.appendAll ts).swap_frames.back.post = selectPosts ts) := by
  rw [swap_frames_front, swap_frames_back, appendAll_back, appendAll_front]
  refine ⟨⟨hbp, hbt, hbo⟩, ?_, ?_, ?_⟩
  · rw [foldl_append_pre, hfp, List.nil_append]
  · rw [foldl_append_tasks, hft, List.nil_append]
  · rw [foldl_append_post, hfo, List.nil_append]

/-- Witness for double-buffer isolation: a fresh double frame receiving
one append of each phase. -/
theorem double_buffer_isolation_witness :
    (((DoubleFrame.with_capacity 0).appendAll
        [FrameAppend.pre (PreFrameTask.createSurface 0 0),
          FrameAppend.task 0 3 (FrameTask.updateSurface 1),
          FrameAppend.post (PostFrameTask.deleteSurface 0)]).swap_frames.front.pre = [] ∧
      ((DoubleFrame.with_capacity 0).appendAll
        [FrameAppend.pre (PreFrameTask.createSurface 0 0),
          FrameAppend.task 0 3 (FrameTask.updateSurface 1),
          FrameAppend.post (PostFrameTask.deleteSurface 0)]).swap_frames.front.tasks = [] ∧
      ((DoubleFrame.with_capacity 0).appendAll
        [FrameAppend.pre (PreFrameTask.createSurface 0 0),
          FrameAppend.task 0 3 (FrameTask.updateSurface 1),
          FrameAppend.post (PostFrameTask.deleteSurface 0)]).swap_frames.front.post = []) ∧
    (((DoubleFrame.with_capacity 0).appendAll
        [FrameAppend.pre (PreFrameTask.createSurface 0 0),
          FrameAppend.task 0 3 (FrameTask.updateSurface 1),
          FrameAppend.post (PostFrameTask.deleteSurface 0)]).swap_frames.back.pre =
        selectPres
          [FrameAppend.pre (PreFrameTask.createSurface 0 0),
            FrameAppend.task 0 3 (FrameTask.updateSurface 1),
            FrameAppend.post (PostFrameTask.deleteSurface 0)] ∧
      ((DoubleFrame.with_capacity 0).appendAll
        [FrameAppend.pre (PreFrameTask.createSurface 0 0),
          FrameAppend.task 0 3 (FrameTask.updateSurface 1),
          FrameAppend.post (PostFrameTask.deleteSurface 0)]).swap_frames.back.tasks =
        selectTasks
          [FrameAppend.pre (PreFrameTask.createSurface 0 0),
            FrameAppend.task 0 3 (FrameTask.updateSurface 1),
            FrameAppend.post (PostFrameTask.deleteSurface 0)] ∧
      ((DoubleFrame.with_capacity 0).appendAll
        [FrameAppend.pre (PreFrameTask.createSurface 0 0),
          FrameAppend.task 0 3 (FrameTask.updateSurface 1),
          FrameAppend.post (PostFrameTask.deleteSurface 0)]).swap_frames.back.post =
        selectPosts
          [FrameAppend.pre (PreFrameTask.createSurface 0 0),
            FrameAppend.task 0 3 (FrameTask.updateSurface 1),
            FrameAppend.post (PostFrameTask.deleteSurface 0)]) :=
  double_buffer_isolation (DoubleFrame.with_capacity 0) _
    rfl rfl rfl rfl rfl rfl

/-- System fixture whose back frame holds one ordered task. -/
def sysSample : GraphicsSystem :=
  { frames := { idx := 0, frame0 := Frame.with_capacity 0, frame1 := frSample } }

/-- C7 counterexample: on a tick whose dispatch fails (the flush call
fails), `advance` returns the error and the back frame is NOT cleared —
its ordered-task list is still intact afterwards, refuting the claim that
the clear happens on every tick including error ticks. -/
theorem advance_error_tick_skips_clear :
    (sysSample.advance true true true true okFlushFails (1, 1) 1).2 = false ∧
      (sysSample.advance true true true true okFlushFails (1, 1) 1).1.frames.back.tasks =
        [(0, 0, FrameTask.updateSurface 0)] := by
  decide

/-- C7 amended: on every tick on which the window queries, the device
bookkeeping, and the dispatch all succeed, the driver clears the back
frame exactly once — all three task lists emptied and the arena logically
truncated — even if the subsequent buffer swap fails; when the dispatch
fails, the clear is skipped (the pre list is nevertheless empty, drained
by dispatch itself). -/
theorem advance_clears_back_iff_dispatch_succeeds (winOk pixOk runOk swapBufOk : Bool)
    (ok : DeviceCall → Bool) (dimensions : Nat × Nat) (hidpi : Nat) (sys : GraphicsSystem)
    (h1 : winOk = true) (h2 : pixOk = true) (h3 : runOk = true) :
    ((sys.frames.back.dispatch ok dimensions hidpi).2.2 = true →
      (sys.advance winOk pixOk runOk swapBufOk ok dimensions hidpi).1.frames.back =
        { pre := [], tasks := [], post := [], buf := ⟨[]⟩ }) ∧
    ((sys.frames.back.dispatch ok dimensions hidpi).2.2 = false →
      (sys.advance winOk pixOk runOk swapBufOk ok dimensions hidpi).1.frames.back =
        (sys.frames.back.dispatch ok dimensions hidpi).1 ∧
      (sys.advance winOk pixOk runOk swapBufOk ok dimensions hidpi).1.frames.back.pre = []) := by
  subst h1 h2 h3
  constructor
  · intro hd
    cases hsw : swapBufOk <;>
      simp [GraphicsSystem.advance, hd, hsw, setBack_back, Frame.clear, DataBuffer.clear]
  · intro hd
    refine ⟨by simp [GraphicsSystem.advance, hd, setBack_back], ?_⟩
    simp [GraphicsSystem.advance, hd, setBack_back]
    exact (dispatch_drains_pre_keeps_tasks ok dimensions hidpi sys.frames.back).1

/-- Witness for the amended clear-on-success behavior: the sample system
dispatched against an all-succeeding device ends the tick with its back
frame cleared. -/
theorem advance_clears_back_iff_dispatch_succeeds_witness :
    (sysSample.advance true true true true allOk (1, 1) 1).1.frames.back =
      { pre := [], tasks := [], post := [], buf := ⟨[]⟩ } :=
  (advance_clears_back_iff_dispatch_succeeds true true true true allOk (1, 1) 1 sysSample
    rfl rfl rfl).1 (by decide)

/-- Reference count of a slot; zero for a dead or never-created handle. -/
def Registery.rcOf (r : Registery α) (h : Nat) : Nat :=
  match r.slots[h]? with
  | some s => s.rc
  | none => 0

/-!
Lemmas about the registry operations.
-/

theorem is_alive_iff_rcOf (r : Registery α) (h : Nat) :
    r.is_alive h = true ↔ 0 < r.rcOf h := by
  unfold Registery.is_alive Registery.rcOf
  cases r.slots[h]? <;> simp

theorem rcOf_pos_getElem (r : Registery α) (h : Nat) (hp : 0 < r.rcOf h) :
    ∃ s, r.slots[h]? = some s ∧ 0 < s.rc := by
  unfold Registery.rcOf at hp
  cases hs : r.slots[h]? with
  | none => rw [hs] at hp; exact absurd hp (Nat.lt_irrefl 0)
  | some s => exact ⟨s, rfl, by rw [hs] at hp; exact hp⟩

theorem dec_rc_dead (r : Registery α) (h : Nat) (hdead : r.rcOf h = 0) :
    r.dec_rc h true = (r, none) := by
  unfold Registery.dec_rc
  unfold Registery.rcOf at hdead
  cases hs : r.slots[h]? with
  | none => simp
  | some s =>
      rw [hs] at hdead
      have h0 : s.rc = 0 := hdead
      simp [h0]

theorem rcOf_modify_dec (r : Registery α) (h : Nat) :
    (Registery.mk (r.slots.modify (fun t => { t with rc := t.rc - 1 }) h) : Registery α).rcOf h
      = r.rcOf h - 1 := by
  unfold Registery.rcOf
  rw [List.getElem?_modify]
  cases r.slots[h]? <;> simp

theorem dec_rc_live_many (r : Registery α) (h : Nat) (hr : 2 ≤ r.rcOf h) :
    (r.dec_rc h true).2 = none ∧
      (r.dec_rc h true).1.rcOf h = r.rcOf h - 1 := by
  obtain ⟨s, hs, _⟩ := rcOf_pos_getElem r h (by omega)
  have hrc : s.rc = r.rcOf h := by unfold Registery.rcOf; rw [hs]
  unfold Registery.dec_rc
  rw [hs]
  have h1 : s.rc ≠ 1 := by omega
  have h0 : 0 < s.rc := by omega
  simp [h0, h1, rcOf_modify_dec]

theorem dec_rc_live_one (r : Registery α) (h : Nat) (hr : r.rcOf h = 1) :
    ∃ s, r.dec_rc h true =
      (⟨r.slots.modify (fun t => { t with rc := t.rc - 1 }) h⟩, some s) := by
  obtain ⟨s, hs, _⟩ := rcOf_pos_getElem r h (by omega)
  have hrc : s.rc = r.rcOf h := by unfold Registery.rcOf; rw [hs]
  unfold Registery.dec_rc
  rw [hs]
  have h1 : s.rc = 1 := by omega
  exact ⟨s.state, by simp [h1]⟩

theorem lookup_shared_found (r : Registery α) (key h : Nat)
    (hl : r.lookup (Location.shared key) = some h) :
    h < r.slots.length ∧ 0 < r.rcOf h := by
  unfold Registery.lookup at hl
  rw [List.findIdx?_eq_some_iff_getElem] at hl
  obtain ⟨hlen, hp, _⟩ := hl
  refine ⟨hlen, ?_⟩
  simp only [Bool.and_eq_true, decide_eq_true_eq] at hp
  unfold Registery.rcOf
  rw [List.getElem?_eq_getElem hlen]
  exact hp.1

theorem inc_rc_of_lookup (r : Registery α) (key h : Nat)
    (hl : r.lookup (Location.shared key) = some h) :
    (r.inc_rc h).slots.length = r.slots.length ∧
      (r.inc_rc h).rcOf h = r.rcOf h + 1 ∧
      (r.inc_rc h).get h = r.get h := by
  obtain ⟨hlen, hrc⟩ := lookup_shared_found r key h hl
  have ha : r.is_alive h = true := (is_alive_iff_rcOf r h).mpr hrc
  unfold Registery.inc_rc
  rw [ha]
  simp only [if_true]
  refine ⟨by simp, ?_, ?_⟩
  · unfold Registery.rcOf
    rw [List.getElem?_modify]
    obtain ⟨s, hs, hsp⟩ := rcOf_pos_getElem r h hrc
    rw [hs]
    simp
  · unfold Registery.get
    rw [List.getElem?_modify]
    obtain ⟨s, hs, hsp⟩ := rcOf_pos_getElem r h hrc
    rw [hs]
    simp [hsp]

theorem delete_mesh_many (st : GraphicsSystemShared) (h : MeshHandle)
    (hr : 2 ≤ st.meshes.rcOf h) :
    (st.delete_mesh h).1.frames = st.frames ∧
      (st.delete_mesh h).1.meshes.rcOf h = st.meshes.rcOf h - 1 := by
  obtain ⟨h2, h3⟩ := dec_rc_live_many st.meshes h hr
  simp [GraphicsSystemShared.delete_mesh, h2, h3]

theorem delete_mesh_last (st : GraphicsSystemShared) (h : MeshHandle)
    (hr : st.meshes.rcOf h = 1) :
    (st.delete_mesh h).1.frames.front.post =
        st.frames.front.post ++ [PostFrameTask.deleteMesh h] ∧
      (st.delete_mesh h).1.frames.front.pre = st.frames.front.pre ∧
      (st.delete_mesh h).1.frames.front.tasks = st.frames.front.tasks := by
  obtain ⟨s, hdec⟩ := dec_rc_live_one st.meshes h hr
  simp [GraphicsSystemShared.delete_mesh, hdec, GraphicsSystemShared.modifyFront,
    modifyFront_front]

theorem delete_shader_many (st : GraphicsSystemShared) (h : ShaderHandle)
    (hr : 2 ≤ st.shaders.rcOf h) :
    (st.delete_shader h).1.frames = st.frames ∧
      (st.delete_shader h).1.shaders.rcOf h = st.shaders.rcOf h - 1 := by
  obtain ⟨h2, h3⟩ := dec_rc_live_many st.shaders h hr
  simp [GraphicsSystemShared.delete_shader, h2, h3]

theorem delete_shader_last (st : GraphicsSystemShared) (h : ShaderHandle)
    (hr : st.shaders.rcOf h = 1) :
    (st.delete_shader h).1.frames.front.post =
        st.frames.front.post ++ [PostFrameTask.deletePipeline h] ∧
      (st.delete_shader h).1.frames.front.pre = st.frames.front.pre ∧
      (st.delete_shader h).1.frames.front.tasks = st.frames.front.tasks := by
  obtain ⟨s, hdec⟩ := dec_rc_live_one st.shaders h hr
  simp [GraphicsSystemShared.delete_shader, hdec, GraphicsSystemShared.modifyFront,
    modifyFront_front]

/-- Iterated `delete_mesh` on one handle. -/
def iterDeleteMesh (st : GraphicsSystemShared) (h : MeshHandle) : Nat → GraphicsSystemShared
  | 0 => st
  | k + 1 => ((iterDeleteMesh st h k).delete_mesh h).1

/-- Iterated `delete_shader` on one handle. -/
def iterDeleteShader (st : GraphicsSystemShared) (h : ShaderHandle) : Nat → GraphicsSystemShared
  | 0 => st
  | k + 1 => ((iterDeleteShader st h k).delete_shader h).1

theorem iterDeleteMesh_inv (st : GraphicsSystemShared) (h : MeshHandle) :
    ∀ k, k < st.meshes.rcOf h →
      (iterDeleteMesh st h k).frames = st.frames ∧
        (iterDeleteMesh st h k).meshes.rcOf h = st.meshes.rcOf h - k := by
  intro k
  induction k with
  | zero => intro _; exact ⟨rfl, by simp [iterDeleteMesh]⟩
  | succ k ih =>
      intro hk
      obtain ⟨hf, hr⟩ := ih (by omega)
      have h2 : 2 ≤ (iterDeleteMesh st h k).meshes.rcOf h := by omega
      obtain ⟨hf', hr'⟩ := delete_mesh_many _ h h2
      refine ⟨?_, ?_⟩
      · show ((iterDeleteMesh st h k).delete_mesh h).1.frames = st.frames
        rw [hf', hf]
      · show ((iterDeleteMesh st h k).delete_mesh h).1.meshes.rcOf h = _
        rw [hr', hr]
        omega

theorem iterDeleteShader_inv (st : GraphicsSystemShared) (h : ShaderHandle) :
    ∀ k, k < st.shaders.rcOf h →
      (iterDeleteShader st h k).frames = st.frames ∧
        (iterDeleteShader st h k).shaders.rcOf h = st.shaders.rcOf h - k := by
  intro k
  induction k with
  | zero => intro _; exact ⟨rfl, by simp [iterDeleteShader]⟩
  | succ k ih =>
      intro hk
      obtain ⟨hf, hr⟩ := ih (by omega)
      have h2 : 2 ≤ (iterDeleteShader st h k).shaders.rcOf h := by omega
      obtain ⟨hf', hr'⟩ := delete_shader_many _ h h2
      refine ⟨?_, ?_⟩
      · show ((iterDeleteShader st h k).delete_shader h).1.frames = st.frames
        rw [hf', hf]
      · show ((iterDeleteShader st h k).delete_shader h).1.shaders.rcOf h = _
        rw [hr', hr]
        omega

/-- C4: reference-counted teardown for meshes and shaders — for a live
slot of reference count n ≥ 1, each of the first n - 1 delete calls
leaves the front frame (in particular its post list) unchanged, and the
n-th call pushes exactly one deletion post-task for that handle onto the
front frame. -/
theorem delete_refcounted_teardown (st : GraphicsSystemShared) (hm : MeshHandle)
    (hsh : ShaderHandle) (n m : Nat)
    (hn : 1 ≤ n) (hrm : st.meshes.rcOf hm = n)
    (hm1 : 1 ≤ m) (hrs : st.shaders.rcOf hsh = m) :
    ((∀ k, k < n → (iterDeleteMesh st hm k).frames.front.post = st.frames.front.post) ∧
      (iterDeleteMesh st hm n).frames.front.post =
        st.frames.front.post ++ [PostFrameTask.deleteMesh hm]) ∧
    ((∀ k, k < m → (iterDeleteShader st hsh k).frames.front.post = st.frames.front.post) ∧
      (iterDeleteShader st hsh m).frames.front.post =
        st.frames.front.post ++ [PostFrameTask.deletePipeline hsh]) := by
  subst hrm hrs
  refine ⟨⟨?_, ?_⟩, ?_, ?_⟩
  · intro k hk
    rw [(iterDeleteMesh_inv st hm k hk).1]
  · obtain ⟨hf, hr⟩ := iterDeleteMesh_inv st hm (st.meshes.rcOf hm - 1) (by omega)
    have hone : (iterDeleteMesh st hm (st.meshes.rcOf hm - 1)).meshes.rcOf hm = 1 := by omega
    obtain ⟨hpost, -, -⟩ := delete_mesh_last _ hm hone
    have hstep : iterDeleteMesh st hm (st.meshes.rcOf hm) =
        ((iterDeleteMesh st hm (st.meshes.rcOf hm - 1)).delete_mesh hm).1 := by
      have : st.meshes.rcOf hm = (st.meshes.rcOf hm - 1) + 1 := by omega
      rw [this]
      rfl
    rw [hstep, hpost, hf]
  · intro k hk
    rw [(iterDeleteShader_inv st hsh k hk).1]
  · obtain ⟨hf, hr⟩ := iterDeleteShader_inv st hsh (st.shaders.rcOf hsh - 1) (by omega)
    have hone : (iterDeleteShader st hsh (st.shaders.rcOf hsh - 1)).shaders.rcOf hsh = 1 := by
      omega
    obtain ⟨hpost, -, -⟩ := delete_shader_last _ hsh hone
    have hstep : iterDeleteShader st hsh (st.shaders.rcOf hsh) =
        ((iterDeleteShader st hsh (st.shaders.rcOf hsh - 1)).delete_shader hsh).1 := by
      have : st.shaders.rcOf hsh = (st.shaders.rcOf hsh - 1) + 1 := by omega
      rw [this]
      rfl
    rw [hstep, hpost, hf]

/-- Shader setup fixture declaring one uniform (name hash 7, type i1). -/
def exShaderSetup : ShaderSetup :=
  { vs := [1], fs := [1], uniform_variables := [(7, UniformVariableType.i1)],
    render_state := 0, layout := 0 }

/-- Mesh setup fixture. -/
def exMeshSetup : MeshSetup :=
  { vertex_buffer_len := 10, index_buffer_len := 10, valid := true, payload := 0 }

/-- Facade state fixture: one surface (handle 0), one shader (handle 0 at
shared location 5), one ready mesh (handle 0 at shared location 6), built
through the facade's own create calls. -/
def exState : GraphicsSystemShared :=
  (((GraphicsSystemShared.new.create_surface 0).1.create_shader
      (Location.shared 5) exShaderSetup).1.create_mesh
    (Location.shared 6) exMeshSetup (some [1, 2]) none).1

/-- Facade state fixture with the shader and the mesh each created twice,
so both slots have reference count 2. -/
def exState2 : GraphicsSystemShared :=
  ((exState.create_shader (Location.shared 5) exShaderSetup).1.create_mesh
    (Location.shared 6) exMeshSetup none none).1

/-- Witness for reference-counted teardown at reference count 2: the first
delete pushes nothing, the second pushes exactly one post-task, for both
the mesh and the shader of the fixture state. -/
theorem delete_refcounted_teardown_witness :
    ((iterDeleteMesh exState2 0 1).frames.front.post = exState2.frames.front.post ∧
      (iterDeleteMesh exState2 0 2).frames.front.post =
        exState2.frames.front.post ++ [PostFrameTask.deleteMesh 0]) ∧
    ((iterDeleteShader exState2 0 1).frames.front.post = exState2.frames.front.post ∧
      (iterDeleteShader exState2 0 2).frames.front.post =
        exState2.frames.front.post ++ [PostFrameTask.deletePipeline 0]) :=
  ⟨⟨(delete_refcounted_teardown exState2 0 0 2 2 (by decide) (by decide)
        (by decide) (by decide)).1.1 1 (by decide),
      (delete_refcounted_teardown exState2 0 0 2 2 (by decide) (by decide)
        (by decide) (by decide)).1.2⟩,
    (delete_refcounted_teardown exState2 0 0 2 2 (by decide) (by decide)
        (by decide) (by decide)).2.1 1 (by decide),
    (delete_refcounted_teardown exState2 0 0 2 2 (by decide) (by decide)
        (by decide) (by decide)).2.2⟩

/-- Whether an optional byte span fits under a declared buffer length. -/
def spanFits : Option (List Int) → Nat → Bool
  | some b, cap => decide (b.length ≤ cap)
  | none, _ => true

theorem spanFits_not_exceeds (o : Option (List Int)) (cap : Nat)
    (h : spanFits o cap = true) : exceedsSpan o cap = false := by
  cases o with
  | none => rfl
  | some b =>
      simp only [spanFits, decide_eq_true_eq] at h
      simp only [exceedsSpan, decide_eq_false_iff_not]
      omega

theorem create_fresh_lookup (r : Registery α) (key : Nat) (st : α)
    (hl : r.lookup (Location.shared key) = none) :
    (r.create (Location.shared key) st).2 = r.slots.length ∧
      (r.create (Location.shared key) st).1.lookup (Location.shared key) =
        some r.slots.length := by
  unfold Registery.create
  rw [hl]
  refine ⟨rfl, ?_⟩
  simp only [Registery.lookup] at hl ⊢
  rw [List.findIdx?_append, hl]
  simp [List.findIdx?_cons]

theorem create_shader_dedup (st : GraphicsSystemShared) (key : Nat) (h : ShaderHandle)
    (setup : ShaderSetup) (hl : st.shaders.lookup (Location.shared key) = some h)
    (hu : setup.uniform_variables.length ≤ MAX_UNIFORM_VARIABLES)
    (hvs : setup.vs.length ≠ 0) (hfs : setup.fs.length ≠ 0) :
    st.create_shader (Location.shared key) setup =
      ({ st with shaders := st.shaders.inc_rc h }, .ok h) := by
  unfold GraphicsSystemShared.create_shader
  rw [if_neg (by omega), if_neg hvs, if_neg hfs, hl]

theorem create_mesh_dedup (st : GraphicsSystemShared) (key : Nat) (h : MeshHandle)
    (setup : MeshSetup) (verts idxes : Option (List Int))
    (hl : st.meshes.lookup (Location.shared key) = some h)
    (hv : spanFits verts setup.vertex_buffer_len = true)
    (hi : spanFits idxes setup.index_buffer_len = true)
    (hval : setup.valid = true) :
    st.create_mesh (Location.shared key) setup verts idxes =
      ({ st with meshes := st.meshes.inc_rc h }, .ok h) := by
  unfold GraphicsSystemShared.create_mesh
  rw [spanFits_not_exceeds _ _ hv, spanFits_not_exceeds _ _ hi, hval]
  simp [hl]

theorem create_texture_dedup (st : GraphicsSystemShared) (key : Nat) (h : TextureHandle)
    (setup : TextureSetup) (data : Option (List Int))
    (hl : st.textures.lookup (Location.shared key) = some h) :
    st.create_texture (Location.shared key) setup data =
      ({ st with textures := st.textures.inc_rc h }, .ok h) := by
  unfold GraphicsSystemShared.create_texture
  rw [hl]

theorem create_mesh_from_dedup (st : GraphicsSystemShared) (key : Nat) (h : MeshHandle)
    (setup : MeshSetup) (hl : st.meshes.lookup (Location.shared key) = some h) :
    st.create_mesh_from (Location.shared key) setup =
      ({ st with meshes := st.meshes.inc_rc h }, .ok h) := by
  unfold GraphicsSystemShared.create_mesh_from
  rw [hl]

theorem create_texture_from_dedup (st : GraphicsSystemShared) (key : Nat) (h : TextureHandle)
    (setup : TextureSetup) (hl : st.textures.lookup (Location.shared key) = some h) :
    st.create_texture_from (Location.shared key) setup =
      ({ st with textures := st.textures.inc_rc h }, .ok h) := by
  unfold GraphicsSystemShared.create_texture_from
  rw [hl]

theorem create_shader_fresh_lookup (st : GraphicsSystemShared) (key : Nat)
    (setup : ShaderSetup) (hl : st.shaders.lookup (Location.shared key) = none)
    (hu : setup.uniform_variables.length ≤ MAX_UNIFORM_VARIABLES)
    (hvs : setup.vs.length ≠ 0) (hfs : setup.fs.length ≠ 0) :
    (st.create_shader (Location.shared key) setup).2 =
        CallResult.ok st.shaders.slots.length ∧
      (st.create_shader (Location.shared key) setup).1.shaders.lookup
          (Location.shared key) = some st.shaders.slots.length := by
  unfold GraphicsSystemShared.create_shader
  rw [if_neg (by omega), if_neg hvs, if_neg hfs, hl]
  constructor
  · exact congrArg CallResult.ok (create_fresh_lookup st.shaders key _ hl).1
  · exact (create_fresh_lookup st.shaders key _ hl).2

theorem create_texture_fresh_lookup (st : GraphicsSystemShared) (key : Nat)
    (setup : TextureSetup) (data : Option (List Int))
    (hl : st.textures.lookup (Location.shared key) = none) :
    (st.create_texture (Location.shared key) setup data).2 =
        CallResult.ok st.textures.slots.length ∧
      (st.create_texture (Location.shared key) setup data).1.textures.lookup
          (Location.shared key) = some st.textures.slots.length := by
  unfold GraphicsSystemShared.create_texture
  rw [hl]
  constructor
  · exact congrArg CallResult.ok (create_fresh_lookup st.textures key _ hl).1
  · exact (create_fresh_lookup st.textures key _ hl).2

/-- C5: deduplication on shared locations — for each create entry point
(`create_shader`, `create_mesh`, `create_texture` and their `_from`
variants), a create call with a shared location already mapped to a live
slot (whose setup passes the call's own validation, where it has any)
allocates no new slot, increments that slot's reference count by exactly
one, leaves the slot state and the front frame untouched (the setup is
discarded) and returns the existing handle; and after a first create on a
previously unmapped shared location, `lookup` returns the new handle. -/
theorem create_dedup_shared_location :
    (∀ (st : GraphicsSystemShared) (key : Nat) (h : ShaderHandle) (setup : ShaderSetup),
      st.shaders.lookup (Location.shared key) = some h →
      setup.uniform_variables.length ≤ MAX_UNIFORM_VARIABLES →
      setup.vs.length ≠ 0 → setup.fs.length ≠ 0 →
      (st.create_shader (Location.shared key) setup).2 = CallResult.ok h ∧
        (st.create_shader (Location.shared key) setup).1.shaders.slots.length =
          st.shaders.slots.length ∧
        (st.create_shader (Location.shared key) setup).1.shaders.rcOf h =
          st.shaders.rcOf h + 1 ∧
        (st.create_shader (Location.shared key) setup).1.shaders.get h =
          st.shaders.get h ∧
        (st.create_shader (Location.shared key) setup).1.frames = st.frames) ∧
    (∀ (st : GraphicsSystemShared) (key : Nat) (h : MeshHandle) (setup : MeshSetup)
        (verts idxes : Option (List Int)),
      st.meshes.lookup (Location.shared key) = some h →
      spanFits verts setup.vertex_buffer_len = true →
      spanFits idxes setup.index_buffer_len = true →
      setup.valid = true →
      (st.create_mesh (Location.shared key) setup verts idxes).2 = CallResult.ok h ∧
        (st.create_mesh (Location.shared key) setup verts idxes).1.meshes.slots.length =
          st.meshes.slots.length ∧
        (st.create_mesh (Location.shared key) setup verts idxes).1.meshes.rcOf h =
          st.meshes.rcOf h + 1 ∧
        (st.create_mesh (Location.shared key) setup verts idxes).1.meshes.get h =
          st.meshes.get h ∧
        (st.create_mesh (Location.shared key) setup verts idxes).1.frames = st.frames) ∧
    (∀ (st : GraphicsSystemShared) (key : Nat) (h : TextureHandle) (setup : TextureSetup)
        (data : Option (List Int)),
      st.textures.lookup (Location.shared key) = some h →
      (st.create_texture (Location.shared key) setup data).2 = CallResult.ok h ∧
        (st.create_texture (Location.shared key) setup data).1.textures.slots.length =
          st.textures.slots.length ∧
        (st.create_texture (Location.shared key) setup data).1.textures.rcOf h =
          st.textures.rcOf h + 1 ∧
        (st.create_texture (Location.shared key) setup data).1.textures.get h =
          st.textures.get h ∧
        (st.create_texture (Location.shared key) setup data).1.frames = st.frames) ∧
    (∀ (st : GraphicsSystemShared) (key : Nat) (h : MeshHandle) (setup : MeshSetup),
      st.meshes.lookup (Location.shared key) = some h →
      (st.create_mesh_from (Location.shared key) setup).2 = CallResult.ok h ∧
        (st.create_mesh_from (Location.shared key) setup).1.meshes.slots.length =
          st.meshes.slots.length ∧
        (st.create_mesh_from (Location.shared key) setup).1.meshes.rcOf h =
          st.meshes.rcOf h + 1 ∧
        (st.create_mesh_from (Location.shared key) setup).1.frames = st.frames) ∧
    (∀ (st : GraphicsSystemShared) (key : Nat) (h : TextureHandle) (setup : TextureSetup),
      st.textures.lookup (Location.shared key) = some h →
      (st.create_texture_from (Location.shared key) setup).2 = CallResult.ok h ∧
        (st.create_texture_from (Location.shared key) setup).1.textures.slots.length =
          st.textures.slots.length ∧
        (st.create_texture_from (Location.shared key) setup).1.textures.rcOf h =
          st.textures.rcOf h + 1 ∧
        (st.create_texture_from (Location.shared key) setup).1.frames = st.frames) ∧
    (∀ (st : GraphicsSystemShared) (key : Nat) (setup : ShaderSetup),
      st.shaders.lookup (Location.shared key) = none →
      setup.uniform_variables.length ≤ MAX_UNIFORM_VARIABLES →
      setup.vs.length ≠ 0 → setup.fs.length ≠ 0 →
      (st.create_shader (Location.shared key) setup).1.shaders.lookup
          (Location.shared key) =
        some st.shaders.slots.length ∧
        (st.create_shader (Location.shared key) setup).2 =
          CallResult.ok st.shaders.slots.length) ∧
    (∀ (st : GraphicsSystemShared) (key : Nat) (setup : TextureSetup)
        (data : Option (List Int)),
      st.textures.lookup (Location.shared key) = none →
      (st.create_texture (Location.shared key) setup data).1.textures.lookup
          (Location.shared key) =
        some st.textures.slots.length ∧
        (st.create_texture (Location.shared key) setup data).2 =
          CallResult.ok st.textures.slots.length) := by
  refine ⟨?_, ?_, ?_, ?_, ?_, ?_, ?_⟩
  · intro st key h setup hl hu hvs hfs
    rw [create_shader_dedup st key h setup hl hu hvs hfs]
    obtain ⟨hlen, hrc, hget⟩ := inc_rc_of_lookup st.shaders key h hl
    exact ⟨rfl, hlen, hrc, hget, rfl⟩
  · intro st key h setup verts idxes hl hv hi hval
    rw [create_mesh_dedup st key h setup verts idxes hl hv hi hval]
    obtain ⟨hlen, hrc, hget⟩ := inc_rc_of_lookup st.meshes key h hl
    exact ⟨rfl, hlen, hrc, hget, rfl⟩
  · intro st key h setup data hl
    rw [create_texture_dedup st key h setup data hl]
    obtain ⟨hlen, hrc, hget⟩ := inc_rc_of_lookup st.textures key h hl
    exact ⟨rfl, hlen, hrc, hget, rfl⟩
  · intro st key h setup hl
    rw [create_mesh_from_dedup st key h setup hl]
    obtain ⟨hlen, hrc, hget⟩ := inc_rc_of_lookup st.meshes key h hl
    exact ⟨rfl, hlen, hrc, rfl⟩
  · intro st key h setup hl
    rw [create_texture_from_dedup st key h setup hl]
    obtain ⟨hlen, hrc, hget⟩ := inc_rc_of_lookup st.textures key h hl
    exact ⟨rfl, hlen, hrc, rfl⟩
  · intro st key setup hl hu hvs hfs
    obtain ⟨h2, hlk⟩ := create_shader_fresh_lookup st key setup hl hu hvs hfs
    exact ⟨hlk, h2⟩
  · intro st key setup data hl
    obtain ⟨h2, hlk⟩ := create_texture_fresh_lookup st key setup data hl
    exact ⟨hlk, h2⟩

/-- Witness for deduplication: in the fixture state, a second
`create_shader` at shared location 5 returns the existing handle 0 with
the count bumped to 2, and in the fresh state a first `create_texture` at
shared location 3 makes `lookup` return the new handle 0. -/
theorem create_dedup_shared_location_witness :
    ((exState.create_shader (Location.shared 5) exShaderSetup).2 = CallResult.ok 0 ∧
      (exState.create_shader (Location.shared 5) exShaderSetup).1.shaders.rcOf 0 =
        exState.shaders.rcOf 0 + 1 ∧
      (exState.create_shader (Location.shared 5) exShaderSetup).1.frames = exState.frames) ∧
    ((GraphicsSystemShared.new.create_texture (Location.shared 3) 0 none).1.textures.lookup
        (Location.shared 3) = some 0 ∧
      (GraphicsSystemShared.new.create_texture (Location.shared 3) 0 none).2 =
        CallResult.ok 0) :=
  ⟨⟨(create_dedup_shared_location.1 exState 5 0 exShaderSetup (by decide) (by decide)
        (by decide) (by decide)).1,
      (create_dedup_shared_location.1 exState 5 0 exShaderSetup (by decide) (by decide)
        (by decide) (by decide)).2.2.1,
      (create_dedup_shared_location.1 exState 5 0 exShaderSetup (by decide) (by decide)
        (by decide) (by decide)).2.2.2.2⟩,
    create_dedup_shared_location.2.2.2.2.2.2 GraphicsSystemShared.new 3 0 none (by decide)⟩

/-- C9: updating a live texture whose readiness state is not "ready" is a
silent no-op — both the direct `update_texture` call and a texture-update
command routed through `submit` (with a live surface) return success and
leave the whole state untouched: zero tasks appended, zero bytes staged. -/
theorem update_not_ready_texture_silent (st : GraphicsSystemShared) (texture : TextureHandle)
    (rect : Rect) (data : List Int) (s o : Nat)
    (ht : st.textures.get texture = some TextureState.notReady) :
    st.update_texture texture rect data = (st, CallResult.ok ()) ∧
      (st.surfaces.is_alive s = true →
        st.submit s o (Command.textureUpdate texture rect data) = (st, CallResult.ok ())) := by
  constructor
  · simp [GraphicsSystemShared.update_texture, ht]
  · intro hs
    simp [GraphicsSystemShared.submit, hs, GraphicsSystemShared.submit_update_texture, ht]

/-- Facade state fixture with an additional not-ready texture (handle 0)
created through the async-loading entry point. -/
def exStateTex : GraphicsSystemShared :=
  (exState.create_texture_from (Location.shared 9) 0).1

/-- Witness for the silent not-ready texture update in the fixture state. -/
theorem update_not_ready_texture_silent_witness :
    exStateTex.update_texture 0 0 [1, 2] = (exStateTex, CallResult.ok ()) ∧
      exStateTex.submit 0 0 (Command.textureUpdate 0 0 [1, 2]) =
        (exStateTex, CallResult.ok ()) :=
  ⟨(update_not_ready_texture_silent exStateTex 0 0 [1, 2] 0 0 (by decide)).1,
    (update_not_ready_texture_silent exStateTex 0 0 [1, 2] 0 0 (by decide)).2 (by decide)⟩

/-- C3, evaluated at the failing input: a draw-call submission supplying
uniform name 9, which the bound shader does not declare, does not return
an error — it terminates abnormally (a Rust panic), because the source
indexes `uniform_variable_names` with the absent key while formatting the
undeclared-uniform error message; no ordered task is appended. -/
theorem submit_drawcall_undeclared_uniform_panics :
    (exState.submit 0 0 (Command.drawCall
        { shader := 0, uniforms := [(9, UniformVariable.i1 3)], mesh := 0, index := 0 })).2 =
      CallResult.panicked ∧
      (exState.submit 0 0 (Command.drawCall
          { shader := 0, uniforms := [(9, UniformVariable.i1 3)], mesh := 0,
            index := 0 })).1.frames.front.tasks = exState.frames.front.tasks := by
  decide

/-- C2 counterexample: a draw-call submission whose second supplied
uniform fails type validation returns an error, yet the front frame's
staging arena is NOT exactly as it was before the call — it has grown by
the bytes of the first, already-validated uniform. -/
theorem submit_error_arena_side_effect :
    (exState.submit 0 0 (Command.drawCall
        { shader := 0, uniforms := [(7, UniformVariable.i1 3), (7, UniformVariable.f1 4)],
          mesh := 0, index := 0 })).2 = CallResult.err GfxError.unmatchedUniformVariable ∧
      ¬ ((exState.submit 0 0 (Command.drawCall
          { shader := 0, uniforms := [(7, UniformVariable.i1 3), (7, UniformVariable.f1 4)],
            mesh := 0, index := 0 })).1.frames.front.buf = exState.frames.front.buf) := by
  decide

/-!
Per-operation lemmas for the all-or-nothing error policy.
-/

theorem create_surface_never_errs (st : GraphicsSystemShared) (setup : SurfaceSetup) :
    ((st.create_surface setup).2).isErr = false := rfl

theorem create_framebuffer_never_errs (st : GraphicsSystemShared) (setup : FrameBufferSetup) :
    ((st.create_framebuffer setup).2).isErr = false := rfl

theorem create_render_buffer_never_errs (st : GraphicsSystemShared)
    (setup : RenderBufferSetup) : ((st.create_render_buffer setup).2).isErr = false := rfl

theorem create_render_texture_never_errs (st : GraphicsSystemShared)
    (setup : RenderTextureSetup) : ((st.create_render_texture setup).2).isErr = false := rfl

theorem create_mesh_from_never_errs (st : GraphicsSystemShared) (location : Location)
    (setup : MeshSetup) : ((st.create_mesh_from location setup).2).isErr = false := by
  unfold GraphicsSystemShared.create_mesh_from
  rcases st.meshes.lookup location with _ | h <;> rfl

theorem create_texture_from_never_errs (st : GraphicsSystemShared) (location : Location)
    (setup : TextureSetup) : ((st.create_texture_from location setup).2).isErr = false := by
  unfold GraphicsSystemShared.create_texture_from
  rcases st.textures.lookup location with _ | h <;> rfl

theorem delete_surface_never_errs (st : GraphicsSystemShared) (h : SurfaceHandle) :
    ((st.delete_surface h).2).isErr = false := by
  rcases hd : (st.surfaces.dec_rc h true).2 with _ | s <;>
    simp [GraphicsSystemShared.delete_surface, hd, CallResult.isErr]

theorem delete_shader_never_errs (st : GraphicsSystemShared) (h : ShaderHandle) :
    ((st.delete_shader h).2).isErr = false := by
  rcases hd : (st.shaders.dec_rc h true).2 with _ | s <;>
    simp [GraphicsSystemShared.delete_shader, hd, CallResult.isErr]

theorem delete_framebuffer_never_errs (st : GraphicsSystemShared) (h : FrameBufferHandle) :
    ((st.delete_framebuffer h).2).isErr = false := by
  rcases hd : (st.framebuffers.dec_rc h true).2 with _ | s <;>
    simp [GraphicsSystemShared.delete_framebuffer, hd, CallResult.isErr]

theorem delete_render_buffer_never_errs (st : GraphicsSystemShared) (h : RenderBufferHandle) :
    ((st.delete_render_buffer h).2).isErr = false := by
  rcases hd : (st.render_buffers.dec_rc h true).2 with _ | s <;>
    simp [GraphicsSystemShared.delete_render_buffer, hd, CallResult.isErr]

theorem delete_mesh_never_errs (st : GraphicsSystemShared) (h : MeshHandle) :
    ((st.delete_mesh h).2).isErr = false := by
  rcases hd : (st.meshes.dec_rc h true).2 with _ | s <;>
    simp [GraphicsSystemShared.delete_mesh, hd, CallResult.isErr]

theorem delete_texture_never_errs (st : GraphicsSystemShared) (h : TextureHandle) :
    ((st.delete_texture h).2).isErr = false := by
  rcases hd : (st.textures.dec_rc h true).2 with _ | s <;>
    simp [GraphicsSystemShared.delete_texture, hd, CallResult.isErr]

theorem create_shader_err_state (st : GraphicsSystemShared) (location : Location)
    (setup : ShaderSetup) (h : ((st.create_shader location setup).2).isErr = true) :
    (st.create_shader location setup).1 = st := by
  unfold GraphicsSystemShared.create_shader at h ⊢
  split_ifs at h ⊢ with h1 h2 h3
  · rfl
  · rfl
  · rfl
  · rcases hlk : st.shaders.lookup location with _ | hh <;>
      simp [hlk, CallResult.isErr] at h

theorem create_mesh_err_state (st : GraphicsSystemShared) (location : Location)
    (setup : MeshSetup) (verts idxes : Option (List Int))
    (h : ((st.create_mesh location setup verts idxes).2).isErr = true) :
    (st.create_mesh location setup verts idxes).1 = st := by
  unfold GraphicsSystemShared.create_mesh at h ⊢
  split_ifs at h ⊢ with h1 h2 h3
  · rfl
  · rfl
  · rfl
  · rcases hlk : st.meshes.lookup location with _ | hh <;>
      simp [hlk, CallResult.isErr] at h

theorem create_texture_err_state (st : GraphicsSystemShared) (location : Location)
    (setup : TextureSetup) (data : Option (List Int))
    (h : ((st.create_texture location setup data).2).isErr = true) :
    (st.create_texture location setup data).1 = st := by
  unfold GraphicsSystemShared.create_texture at h ⊢
  rcases hlk : st.textures.lookup location with _ | hh <;>
    simp [hlk, CallResult.isErr] at h

theorem update_vertex_buffer_err_state (st : GraphicsSystemShared) (mesh : MeshHandle)
    (offset : Nat) (data : List Int)
    (h : ((st.update_vertex_buffer mesh offset data).2).isErr = true) :
    (st.update_vertex_buffer mesh offset data).1 = st := by
  unfold GraphicsSystemShared.update_vertex_buffer at h ⊢
  split_ifs at h ⊢ with h1
  · simp [CallResult.isErr] at h
  · rfl

theorem update_index_buffer_err_state (st : GraphicsSystemShared) (mesh : MeshHandle)
    (offset : Nat) (data : List Int)
    (h : ((st.update_index_buffer mesh offset data).2).isErr = true) :
    (st.update_index_buffer mesh offset data).1 = st := by
  unfold GraphicsSystemShared.update_index_buffer at h ⊢
  split_ifs at h ⊢ with h1
  · simp [CallResult.isErr] at h
  · rfl

theorem update_texture_err_state (st : GraphicsSystemShared) (texture : TextureHandle)
    (rect : Rect) (data : List Int)
    (h : ((st.update_texture texture rect data).2).isErr = true) :
    (st.update_texture texture rect data).1 = st := by
  unfold GraphicsSystemShared.update_texture at h ⊢
  rcases hg : st.textures.get texture with _ | state
  · simp [hg]
  · simp only [hg] at h ⊢
    split_ifs at h <;> simp [CallResult.isErr] at h

theorem submit_set_scissor_err_state (st : GraphicsSystemShared) (surface : SurfaceHandle)
    (order : Nat) (sc : Scissor)
    (h : ((st.submit_set_scissor surface order sc).2).isErr = true) :
    (st.submit_set_scissor surface order sc).1 = st := by
  unfold GraphicsSystemShared.submit_set_scissor at h ⊢
  split_ifs at h ⊢ with h1
  · rfl
  · simp [CallResult.isErr] at h

theorem submit_update_vertex_buffer_err_state (st : GraphicsSystemShared)
    (surface : SurfaceHandle) (order : Nat) (mesh : MeshHandle) (offset : Nat)
    (data : List Int)
    (h : ((st.submit_update_vertex_buffer surface order mesh offset data).2).isErr = true) :
    (st.submit_update_vertex_buffer surface order mesh offset data).1 = st := by
  unfold GraphicsSystemShared.submit_update_vertex_buffer at h ⊢
  split_ifs at h ⊢ with h1 h2
  · rfl
  · simp [CallResult.isErr] at h
  · rfl

theorem submit_update_index_buffer_err_state (st : GraphicsSystemShared)
    (surface : SurfaceHandle) (order : Nat) (mesh : MeshHandle) (offset : Nat)
    (data : List Int)
    (h : ((st.submit_update_index_buffer surface order mesh offset data).2).isErr = true) :
    (st.submit_update_index_buffer surface order mesh offset data).1 = st := by
  unfold GraphicsSystemShared.submit_update_index_buffer at h ⊢
  split_ifs at h ⊢ with h1 h2
  · rfl
  · simp [CallResult.isErr] at h
  · rfl

theorem submit_update_texture_err_state (st : GraphicsSystemShared)
    (surface : SurfaceHandle) (order : Nat) (texture : TextureHandle) (rect : Rect)
    (data : List Int)
    (h : ((st.submit_update_texture surface order texture rect data).2).isErr = true) :
    (st.submit_update_texture surface order texture rect data).1 = st := by
  unfold GraphicsSystemShared.submit_update_texture at h ⊢
  split_ifs at h ⊢ with h1
  · rfl
  · rcases hg : st.textures.get texture with _ | state
    · simp [hg]
    · simp only [hg] at h ⊢
      split_ifs at h <;> simp [CallResult.isErr] at h

theorem submit_drawcall_err_effects (st : GraphicsSystemShared) (surface : SurfaceHandle)
    (order : Nat) (dc : SliceDrawCall)
    (h : ((st.submit_drawcall surface order dc).2).isErr = true) :
    (st.submit_drawcall surface order dc).1.surfaces = st.surfaces ∧
      (st.submit_drawcall surface order dc).1.shaders = st.shaders ∧
      (st.submit_drawcall surface order dc).1.framebuffers = st.framebuffers ∧
      (st.submit_drawcall surface order dc).1.render_buffers = st.render_buffers ∧
      (st.submit_drawcall surface order dc).1.meshes = st.meshes ∧
      (st.submit_drawcall surface order dc).1.textures = st.textures ∧
      (st.submit_drawcall surface order dc).1.frames.front.pre = st.frames.front.pre ∧
      (st.submit_drawcall surface order dc).1.frames.front.tasks = st.frames.front.tasks ∧
      (st.submit_drawcall surface order dc).1.frames.front.post = st.frames.front.post := by
  unfold GraphicsSystemShared.submit_drawcall at h ⊢
  split_ifs at h ⊢ with h1
  · exact ⟨rfl, rfl, rfl, rfl, rfl, rfl, rfl, rfl, rfl⟩
  · rcases hg : st.shaders.get dc.shader with _ | shader
    · simp [hg]
    · simp only [hg] at h ⊢
      rcases hp : packUniforms shader st.frames.front.buf [] dc.uniforms with
        ⟨buf, pack⟩ | ⟨buf, e⟩ | buf
      · simp [hp, CallResult.isErr] at h
      · simp [hp, setFront_front]
      · simp [hp, CallResult.isErr] at h

theorem isErr_discard (r : CallResult α) : (r.discard).isErr = r.isErr := by
  cases r <;> rfl

/-- C2 amended: every Submission Facade call that returns an error leaves
all six registries and the front frame's pre-, ordered- and post-task
lists exactly as they were; for every operation other than a draw-call
submission the entire state — the staging arena included — is exactly as
before the call. The sole exception is the draw-call submit's multi-step
pack-and-validate sequence, which on failure may leave the bytes of
already-validated uniforms staged in the arena (referenced by no task). -/
theorem facade_error_all_or_nothing (st : GraphicsSystemShared) (op : FacadeOp)
    (h : ((applyOp st op).2).isErr = true) :
    ((applyOp st op).1.surfaces = st.surfaces ∧
      (applyOp st op).1.shaders = st.shaders ∧
      (applyOp st op).1.framebuffers = st.framebuffers ∧
      (applyOp st op).1.render_buffers = st.render_buffers ∧
      (applyOp st op).1.meshes = st.meshes ∧
      (applyOp st op).1.textures = st.textures) ∧
    ((applyOp st op).1.frames.front.pre = st.frames.front.pre ∧
      (applyOp st op).1.frames.front.tasks = st.frames.front.tasks ∧
      (applyOp st op).1.frames.front.post = st.frames.front.post) ∧
    (op.isDrawCallSubmit = false → (applyOp st op).1 = st) := by
  cases op with
  | createSurface setup =>
      simp [applyOp, isErr_discard, create_surface_never_errs] at h
  | createShader location setup =>
      simp only [applyOp, isErr_discard] at h
      have hst := create_shader_err_state st location setup h
      simp [applyOp, hst]
  | createFramebuffer setup =>
      simp [applyOp, isErr_discard, create_framebuffer_never_errs] at h
  | createRenderBuffer setup =>
      simp [applyOp, isErr_discard, create_render_buffer_never_errs] at h
  | createMesh location setup verts idxes =>
      simp only [applyOp, isErr_discard] at h
      have hst := create_mesh_err_state st location setup verts idxes h
      simp [applyOp, hst]
  | createMeshFrom location setup =>
      simp [applyOp, isErr_discard, create_mesh_from_never_errs] at h
  | createTexture location setup data =>
      simp only [applyOp, isErr_discard] at h
      have hst := create_texture_err_state st location setup data h
      simp [applyOp, hst]
  | createTextureFrom location setup =>
      simp [applyOp, isErr_discard, create_texture_from_never_errs] at h
  | createRenderTexture setup =>
      simp [applyOp, isErr_discard, create_render_texture_never_errs] at h
  | updateVertexBuffer mesh offset data =>
      simp only [applyOp] at h
      have hst := update_vertex_buffer_err_state st mesh offset data h
      simp [applyOp, hst]
  | updateIndexBuffer mesh offset data =>
      simp only [applyOp] at h
      have hst := update_index_buffer_err_state st mesh offset data h
      simp [applyOp, hst]
  | updateTexture texture rect data =>
      simp only [applyOp] at h
      have hst := update_texture_err_state st texture rect data h
      simp [applyOp, hst]
  | submit s o cmd =>
      simp only [applyOp] at h ⊢
      unfold GraphicsSystemShared.submit at h ⊢
      split_ifs at h ⊢ with hs
      · exact ⟨⟨rfl, rfl, rfl, rfl, rfl, rfl⟩, ⟨rfl, rfl, rfl⟩, fun _ => rfl⟩
      · cases cmd with
        | drawCall dc =>
            obtain ⟨e1, e2, e3, e4, e5, e6, e7, e8, e9⟩ :=
              submit_drawcall_err_effects st s o dc h
            refine ⟨⟨e1, e2, e3, e4, e5, e6⟩, ⟨e7, e8, e9⟩, ?_⟩
            intro hx
            simp [FacadeOp.isDrawCallSubmit] at hx
        | vertexBufferUpdate m off d =>
            have hst := submit_update_vertex_buffer_err_state st s o m off d h
            simp [hst]
        | indexBufferUpdate m off d =>
            have hst := submit_update_index_buffer_err_state st s o m off d h
            simp [hst]
        | textureUpdate t r d =>
            have hst := submit_update_texture_err_state st s o t r d h
            simp [hst]
        | setScissor sc =>
            have hst := submit_set_scissor_err_state st s o sc h
            simp [hst]
  | deleteSurface hh => simp [applyOp, delete_surface_never_errs] at h
  | deleteShader hh => simp [applyOp, delete_shader_never_errs] at h
  | deleteFramebuffer hh => simp [applyOp, delete_framebuffer_never_errs] at h
  | deleteRenderBuffer hh => simp [applyOp, delete_render_buffer_never_errs] at h
  | deleteMesh hh => simp [applyOp, delete_mesh_never_errs] at h
  | deleteTexture hh => simp [applyOp, delete_texture_never_errs] at h

/-- Witness for the all-or-nothing error policy: an out-of-band vertex
buffer update on a never-created mesh handle errors and leaves the
fixture state entirely unchanged. -/
theorem facade_error_all_or_nothing_witness :
    (applyOp exState (FacadeOp.updateVertexBuffer 99 0 [5])).1.frames.front.tasks =
        exState.frames.front.tasks ∧
      ((FacadeOp.updateVertexBuffer 99 0 [5]).isDrawCallSubmit = false →
        (applyOp exState (FacadeOp.updateVertexBuffer 99 0 [5])).1 = exState) :=
  ⟨(facade_error_all_or_nothing exState (FacadeOp.updateVertexBuffer 99 0 [5])
      (by decide)).2.1.2.1,
    (facade_error_all_or_nothing exState (FacadeOp.updateVertexBuffer 99 0 [5])
      (by decide)).2.2⟩

theorem is_alive_false_rcOf (r : Registery α) (h : Nat) (hd : r.is_alive h = false) :
    r.rcOf h = 0 := by
  rcases Nat.eq_zero_or_pos (r.rcOf h) with h0 | h0
  · exact h0
  · rw [(is_alive_iff_rcOf r h).mpr h0] at hd
    simp at hd

/-- C8 counterexample: `delete_mesh` on a never-created handle surfaces no
handle-validity error — the call's return carries no error at all and the
state is left unchanged, refuting the claim for the `delete_*`
operations. -/
theorem delete_dead_handle_no_error :
    ((GraphicsSystemShared.new.delete_mesh 0).2).isErr = false ∧
      (GraphicsSystemShared.new.delete_mesh 0).1 = GraphicsSystemShared.new := by
  decide

/-- C8 amended: every update and submit operation that references a dead
or never-created handle surfaces a handle-validity error synchronously;
the `delete_*` operations return no error (their return type has no error
channel) — a delete on a dead or never-created handle silently leaves the
state unchanged. -/
theorem handle_errors_surfaced :
    (∀ (st : GraphicsSystemShared) (mesh : MeshHandle) (offset : Nat) (data : List Int),
      st.meshes.is_alive mesh = false →
      (st.update_vertex_buffer mesh offset data).2 = CallResult.err GfxError.invalidHandle) ∧
    (∀ (st : GraphicsSystemShared) (mesh : MeshHandle) (offset : Nat) (data : List Int),
      st.meshes.is_alive mesh = false →
      (st.update_index_buffer mesh offset data).2 = CallResult.err GfxError.invalidHandle) ∧
    (∀ (st : GraphicsSystemShared) (texture : TextureHandle) (rect : Rect) (data : List Int),
      st.textures.get texture = none →
      (st.update_texture texture rect data).2 = CallResult.err GfxError.invalidHandle) ∧
    (∀ (st : GraphicsSystemShared) (s : SurfaceHandle) (o : Nat) (cmd : Command),
      st.surfaces.is_alive s = false →
      (st.submit s o cmd).2 = CallResult.err GfxError.undefinedSurfaceHandle) ∧
    (∀ (st : GraphicsSystemShared) (s : SurfaceHandle) (o : Nat) (dc : SliceDrawCall),
      st.surfaces.is_alive s = true → st.meshes.is_alive dc.mesh = false →
      (st.submit s o (Command.drawCall dc)).2 = CallResult.err GfxError.undefinedMeshHandle) ∧
    (∀ (st : GraphicsSystemShared) (s : SurfaceHandle) (o : Nat) (m : MeshHandle)
        (off : Nat) (d : List Int),
      st.surfaces.is_alive s = true → st.meshes.is_alive m = false →
      (st.submit s o (Command.vertexBufferUpdate m off d)).2 =
        CallResult.err GfxError.invalidHandle) ∧
    (∀ (st : GraphicsSystemShared) (s : SurfaceHandle) (o : Nat) (m : MeshHandle)
        (off : Nat) (d : List Int),
      st.surfaces.is_alive s = true → st.meshes.is_alive m = false →
      (st.submit s o (Command.indexBufferUpdate m off d)).2 =
        CallResult.err GfxError.invalidHandle) ∧
    (∀ (st : GraphicsSystemShared) (s : SurfaceHandle) (o : Nat) (t : TextureHandle)
        (r : Rect) (d : List Int),
      st.surfaces.is_alive s = true → st.textures.get t = none →
      (st.submit s o (Command.textureUpdate t r d)).2 =
        CallResult.err GfxError.invalidHandle) ∧
    (∀ (st : GraphicsSystemShared) (h : SurfaceHandle),
      ((st.delete_surface h).2).isErr = false ∧
        (st.surfaces.is_alive h = false → (st.delete_surface h).1 = st)) ∧
    (∀ (st : GraphicsSystemShared) (h : ShaderHandle),
      ((st.delete_shader h).2).isErr = false ∧
        (st.shaders.is_alive h = false → (st.delete_shader h).1 = st)) ∧
    (∀ (st : GraphicsSystemShared) (h : FrameBufferHandle),
      ((st.delete_framebuffer h).2).isErr = false ∧
        (st.framebuffers.is_alive h = false → (st.delete_framebuffer h).1 = st)) ∧
    (∀ (st : GraphicsSystemShared) (h : RenderBufferHandle),
      ((st.delete_render_buffer h).2).isErr = false ∧
        (st.render_buffers.is_alive h = false → (st.delete_render_buffer h).1 = st)) ∧
    (∀ (st : GraphicsSystemShared) (h : MeshHandle),
      ((st.delete_mesh h).2).isErr = false ∧
        (st.meshes.is_alive h = false → (st.delete_mesh h).1 = st)) ∧
    (∀ (st : GraphicsSystemShared) (h : TextureHandle),
      ((st.delete_texture h).2).isErr = false ∧
        (st.textures.is_alive h = false → (st.delete_texture h).1 = st)) := by
  refine ⟨?_, ?_, ?_, ?_, ?_, ?_, ?_, ?_, ?_, ?_, ?_, ?_, ?_, ?_⟩
  · intro st mesh offset data hdead
    simp [GraphicsSystemShared.update_vertex_buffer, hdead]
  · intro st mesh offset data hdead
    simp [GraphicsSystemShared.update_index_buffer, hdead]
  · intro st texture rect data hdead
    simp [GraphicsSystemShared.update_texture, hdead]
  · intro st s o cmd hdead
    simp [GraphicsSystemShared.submit, hdead]
  · intro st s o dc hs hdead
    simp [GraphicsSystemShared.submit, hs, GraphicsSystemShared.submit_drawcall, hdead]
  · intro st s o m off d hs hdead
    simp [GraphicsSystemShared.submit, hs, GraphicsSystemShared.submit_update_vertex_buffer,
      hdead]
  · intro st s o m off d hs hdead
    simp [GraphicsSystemShared.submit, hs, GraphicsSystemShared.submit_update_index_buffer,
      hdead]
  · intro st s o t r d hs hdead
    simp [GraphicsSystemShared.submit, hs, GraphicsSystemShared.submit_update_texture, hdead]
  · intro st h
    refine ⟨delete_surface_never_errs st h, fun hd => ?_⟩
    simp [GraphicsSystemShared.delete_surface,
      dec_rc_dead st.surfaces h (is_alive_false_rcOf st.surfaces h hd)]
  · intro st h
    refine ⟨delete_shader_never_errs st h, fun hd => ?_⟩
    simp [GraphicsSystemShared.delete_shader,
      dec_rc_dead st.shaders h (is_alive_false_rcOf st.shaders h hd)]
  · intro st h
    refine ⟨delete_framebuffer_never_errs st h, fun hd => ?_⟩
    simp [GraphicsSystemShared.delete_framebuffer,
      dec_rc_dead st.framebuffers h (is_alive_false_rcOf st.framebuffers h hd)]
  · intro st h
    refine ⟨delete_render_buffer_never_errs st h, fun hd => ?_⟩
    simp [GraphicsSystemShared.delete_render_buffer,
      dec_rc_dead st.render_buffers h (is_alive_false_rcOf st.render_buffers h hd)]
  · intro st h
    refine ⟨delete_mesh_never_errs st h, fun hd => ?_⟩
    simp [GraphicsSystemShared.delete_mesh,
      dec_rc_dead st.meshes h (is_alive_false_rcOf st.meshes h hd)]
  · intro st h
    refine ⟨delete_texture_never_errs st h, fun hd => ?_⟩
    simp [GraphicsSystemShared.delete_texture,
      dec_rc_dead st.textures h (is_alive_false_rcOf st.textures h hd)]

/-- Witness for the handle-error policy: in the fixture state, an update
on a never-created mesh handle errors, a submit on a never-created
surface errors, and a delete of a never-created texture silently leaves
the state unchanged. -/
theorem handle_errors_surfaced_witness :
    (exState.update_vertex_buffer 99 0 [5]).2 = CallResult.err GfxError.invalidHandle ∧
      (exState.submit 42 0 (Command.setScissor 0)).2 =
        CallResult.err GfxError.undefinedSurfaceHandle ∧
      (exState.delete_texture 7).1 = exState :=
  ⟨handle_errors_surfaced.1 exState 99 0 [5] (by decide),
    handle_errors_surfaced.2.2.2.1 exState 42 0 (Command.setScissor 0) (by decide),
    (handle_errors_surfaced.2.2.2.2.2.2.2.2.2.2.2.2.2 exState 7).2 (by decide)⟩

end Crayon
